import Mathlib

/-!
# VulkanBlitter and MorphHelper: a shallow embedding

The Vulkan blitter (`filament/backend/src/vulkan/VulkanBlitter.cpp`) only talks to
its collaborators: it records commands into a command buffer, asks the binder to
bind state and asks the device for shader modules.  The embedding makes every
such call an element of a list (`Call`), in the order the code performs it, and
every member function a function from the blitter's fields to the new fields and
the calls made.  A failed `assert` / `ASSERT_POSTCONDITION` and a null
dereference are `Except.error`.
-/

namespace Filament

/-! ## Vulkan value types -/

/-- The `VkImageLayout` enumerators. -/
inductive VkImageLayout where
  | UNDEFINED
  | GENERAL
  | COLOR_ATTACHMENT_OPTIMAL
  | DEPTH_STENCIL_ATTACHMENT_OPTIMAL
  | DEPTH_STENCIL_READ_ONLY_OPTIMAL
  | SHADER_READ_ONLY_OPTIMAL
  | TRANSFER_SRC_OPTIMAL
  | TRANSFER_DST_OPTIMAL
  | PREINITIALIZED
  | PRESENT_SRC_KHR
  deriving DecidableEq

/-- The `VkFilter` enumerators. -/
inductive VkFilter where
  | NEAREST
  | LINEAR
  deriving DecidableEq

/-- The `VkCompareOp` enumerators. -/
inductive VkCompareOp where
  | NEVER
  | LESS
  | EQUAL
  | LESS_OR_EQUAL
  | GREATER
  | NOT_EQUAL
  | GREATER_OR_EQUAL
  | ALWAYS
  deriving DecidableEq

/-- `VkImageAspectFlags` is a bit mask. -/
abbrev VkImageAspectFlags := Nat

/-- `VK_IMAGE_ASPECT_COLOR_BIT`. -/
def VK_IMAGE_ASPECT_COLOR_BIT : VkImageAspectFlags := 1

/-- `VK_IMAGE_ASPECT_DEPTH_BIT`. -/
def VK_IMAGE_ASPECT_DEPTH_BIT : VkImageAspectFlags := 2

/-- `VkOffset3D`. -/
structure VkOffset3D where
  x : Int
  y : Int
  z : Int
  deriving DecidableEq

/-- `VkExtent2D`. -/
structure VkExtent2D where
  width : Nat
  height : Nat
  deriving DecidableEq

/-- `VkExtent3D`. -/
structure VkExtent3D where
  width : Nat
  height : Nat
  depth : Nat
  deriving DecidableEq

/-- `VkImageSubresourceLayers`. -/
structure VkImageSubresourceLayers where
  aspectMask : VkImageAspectFlags
  mipLevel : Nat
  baseArrayLayer : Nat
  layerCount : Nat
  deriving DecidableEq

/-- `VkImageBlit`: `srcOffsets` and `dstOffsets` are the two corners. -/
structure VkImageBlit where
  srcSubresource : VkImageSubresourceLayers
  srcOffsets : VkOffset3D × VkOffset3D
  dstSubresource : VkImageSubresourceLayers
  dstOffsets : VkOffset3D × VkOffset3D
  deriving DecidableEq

/-- `VkImageResolve`. -/
structure VkImageResolve where
  srcSubresource : VkImageSubresourceLayers
  srcOffset : VkOffset3D
  dstSubresource : VkImageSubresourceLayers
  dstOffset : VkOffset3D
  extent : VkExtent3D
  deriving DecidableEq

/-- `VkDescriptorImageInfo`; handles are numbers, `0` is the null handle. -/
structure VkDescriptorImageInfo where
  sampler : Nat
  imageView : Nat
  imageLayout : VkImageLayout
  deriving DecidableEq

/-- `VkRect2D`. -/
structure VkRect2D where
  offset : Int × Int
  extent : VkExtent2D
  deriving DecidableEq

/-! ## Raster state (the part of `VulkanBinder::RasterState` the blitter writes) -/

/-- `VkPipelineDepthStencilStateCreateInfo`, the members the blitter names. -/
structure DepthStencilState where
  depthTestEnable : Bool
  depthWriteEnable : Bool
  depthCompareOp : VkCompareOp
  depthBoundsTestEnable : Bool
  stencilTestEnable : Bool
  deriving DecidableEq

/-- `VkPipelineMultisampleStateCreateInfo`, the members the blitter names. -/
structure MultisampleState where
  rasterizationSamples : Nat
  alphaToCoverageEnable : Bool
  deriving DecidableEq

/-- `VkPipelineColorBlendAttachmentState`; factors and ops by their Vulkan number
(`VK_BLEND_FACTOR_ONE = 1`, `VK_BLEND_OP_ADD = 0`). -/
structure BlendState where
  blendEnable : Bool
  srcColorBlendFactor : Nat
  dstColorBlendFactor : Nat
  colorBlendOp : Nat
  srcAlphaBlendFactor : Nat
  dstAlphaBlendFactor : Nat
  alphaBlendOp : Nat
  colorWriteMask : Nat
  deriving DecidableEq

/-- `VkPipelineRasterizationStateCreateInfo`: the blitter assigns three members and
leaves the others as they are; `others` stands for those
(`VK_CULL_MODE_NONE = 0`, `VK_FRONT_FACE_COUNTER_CLOCKWISE = 0`). -/
structure RasterizationState where
  cullMode : Nat
  frontFace : Nat
  depthBiasEnable : Bool
  others : Nat
  deriving DecidableEq

/-- `VulkanBinder::RasterState`. -/
structure RasterState where
  depthStencil : DepthStencilState
  multisampling : MultisampleState
  blending : BlendState
  rasterization : RasterizationState
  colorTargetCount : Nat
  deriving DecidableEq

/-- `VkVertexInputAttributeDescription`. -/
structure VertexAttributeDescription where
  location : Nat
  binding : Nat
  format : Nat
  offset : Nat
  deriving DecidableEq

/-- `VkVertexInputBindingDescription`. -/
structure VertexBindingDescription where
  binding : Nat
  stride : Nat
  inputRate : Nat
  deriving DecidableEq

/-- `VulkanBinder::VertexArray`: two fixed-size arrays. -/
structure VertexArray where
  attributes : List VertexAttributeDescription
  buffers : List VertexBindingDescription
  deriving DecidableEq

/-! ## Handles of the backend -/

/-- `VulkanTexture`, the two members the blitter reads (`HwTexture::samples`,
`HwTexture::usage`). -/
structure VulkanTexture where
  samples : Nat
  usage : Nat
  deriving DecidableEq

/-- Modelled from the spec: `VulkanAttachment` is declared in VulkanHandles.h, which
is not among the sources.  `format`, `image`, `texture`, `level` and `layer` are
the members VulkanBlitter.cpp reads; `texture = none` is the null pointer, the
default render target.  `samples` is the sample count the data model of the
specification gives every attachment; the blitter never reads it and looks at
`texture->samples` instead. -/
structure VulkanAttachment where
  format : Nat
  image : Nat
  texture : Option VulkanTexture
  level : Nat
  layer : Nat
  samples : Nat
  deriving DecidableEq

/-- An attachment is consistent when its owning texture, if it has one, has the
attachment's sample count. -/
def VulkanAttachment.consistent (a : VulkanAttachment) : Bool :=
  match a.texture with
  | some t => decide (t.samples = a.samples)
  | none => true

/-- `VulkanRenderTarget` through its accessors `getColor`, `getDepth`, `getExtent`. -/
structure VulkanRenderTarget where
  getColor : Nat → VulkanAttachment
  getDepth : VulkanAttachment
  getExtent : VkExtent2D

/-- `VulkanBlitter::BlitArgs`. -/
structure BlitArgs where
  dstTarget : VulkanRenderTarget
  dstRectPair : VkOffset3D × VkOffset3D
  srcTarget : VulkanRenderTarget
  srcRectPair : VkOffset3D × VkOffset3D
  filter : VkFilter
  targetIndex : Nat

/-- `VulkanContext`, the members the blitter reads or writes: `device` (`0` is the
null handle), `currentSurface->headlessQueue`, the layout of
`getSwapContext(mContext).attachment`, and `rasterState`. -/
structure VulkanContext where
  device : Nat
  headlessQueue : Bool
  swapAttachmentLayout : VkImageLayout
  rasterState : RasterState
  deriving DecidableEq

/-- `VulkanBuffer` as the blitter builds it: the GPU buffer handle, the usage bits,
the size in bytes and the data loaded from the CPU. -/
structure VulkanBuffer where
  gpuBuffer : Nat
  usage : Nat
  numBytes : Nat
  contents : List Int
  deriving DecidableEq

/-- `VulkanRenderPrimitive`, the members the blitter touches. -/
structure VulkanRenderPrimitive where
  primitiveTopology : Nat
  buffers : List Nat
  offsets : List Nat
  varray : VertexArray
  deriving DecidableEq

/-! ## Calls to collaborators -/

/-- Every call the blitter makes on the command buffer, the device, the binder and
the texture utility, with its arguments. -/
inductive Call where
  | transitionImageLayout (image : Nat) (oldLayout newLayout : VkImageLayout)
      (miplevel levelCount layerCount : Nat) (aspect : VkImageAspectFlags)
  | vkCmdResolveImage (srcImage : Nat) (srcLayout : VkImageLayout) (dstImage : Nat)
      (dstLayout : VkImageLayout) (regions : List VkImageResolve)
  | vkCmdBlitImage (srcImage : Nat) (srcLayout : VkImageLayout) (dstImage : Nat)
      (dstLayout : VkImageLayout) (regions : List VkImageBlit) (filter : VkFilter)
  | vkCreateShaderModule (vertexStage : Bool) (module : Nat)
  | vkDestroyShaderModule (module : Nat)
  | newVulkanBuffer (usage numBytes : Nat)
  | loadFromCpu (contents : List Int) (byteOffset numBytes : Nat)
  | deleteVulkanBuffer (gpuBuffer : Nat)
  | deleteRenderPrimitive
  | puts (text : String)
  | bindProgramBundle (vertex fragment : Nat)
  | bindRasterState (state : RasterState)
  | bindPrimitiveTopology (topology : Nat)
  | bindVertexArray (varray : VertexArray)
  | bindSamplers (samplers : List VkDescriptorImageInfo)
  | vkCmdSetScissor (scissor : VkRect2D)
  | getOrCreateDescriptors
  | vkCmdBindDescriptorSets (count : Nat)
  | getOrCreatePipeline
  | vkCmdBindPipeline
  | vkCmdBindVertexBuffers (bindingCount : Nat) (buffers offsets : List Nat)
  | vkCmdDrawIndexed (indexCount instanceCount firstIndex : Nat) (vertexOffset : Int)
      (firstInstId : Nat)
  deriving DecidableEq

/-- What stops the process. -/
inductive Fault where
  | resolveWithDepth
  | noDevice
  | vertexShaderNotCreated
  | fragmentShaderNotCreated
  | nullRenderPrimitive
  deriving DecidableEq

/-! ## `VulkanBlitter::blitFast` -/

/-- `VulkanBlitter::blitFast`.  `getTextureLayout` is the function of that name of
the backend (not among the sources) and is a parameter.  The result is the list
of calls recorded, or the failed assertion of the resolve branch. -/
def blitFast (getTextureLayout : Nat → VkImageLayout) (mContext : VulkanContext)
    (aspect : VkImageAspectFlags) (filter : VkFilter) (srcExtent : VkExtent2D)
    (src dst : VulkanAttachment) (srcRect dstRect : VkOffset3D × VkOffset3D) :
    Except Fault (List Call) :=
  let blitRegions : List VkImageBlit := [{
    srcSubresource := ⟨aspect, src.level, src.layer, 1⟩
    srcOffsets := (srcRect.1, srcRect.2)
    dstSubresource := ⟨aspect, dst.level, dst.layer, 1⟩
    dstOffsets := (dstRect.1, dstRect.2) }]
  let resolveRegions : List VkImageResolve := [{
    srcSubresource := ⟨aspect, src.level, src.layer, 1⟩
    srcOffset := srcRect.1
    dstSubresource := ⟨aspect, dst.level, dst.layer, 1⟩
    dstOffset := dstRect.1
    extent := ⟨srcExtent.width, srcExtent.height, 1⟩ }]
  let toTransferSrc := Call.transitionImageLayout src.image .UNDEFINED
    .TRANSFER_SRC_OPTIMAL src.level 1 1 aspect
  let toTransferDst := Call.transitionImageLayout dst.image .UNDEFINED
    .TRANSFER_DST_OPTIMAL dst.level 1 1 aspect
  let copy : Except Fault Call :=
    if (match src.texture with
        | none => false
        | some st => decide (st.samples > 1) &&
            (match dst.texture with
             | none => false
             | some dt => decide (dt.samples = 1))) then
      if aspect ≠ VK_IMAGE_ASPECT_DEPTH_BIT then
        .ok (Call.vkCmdResolveImage src.image .TRANSFER_SRC_OPTIMAL dst.image
          .TRANSFER_DST_OPTIMAL resolveRegions)
      else .error Fault.resolveWithDepth
    else
      .ok (Call.vkCmdBlitImage src.image .TRANSFER_SRC_OPTIMAL dst.image
        .TRANSFER_DST_OPTIMAL blitRegions filter)
  let restoreSrc : List Call :=
    match src.texture with
    | some st => [Call.transitionImageLayout src.image .UNDEFINED
        (getTextureLayout st.usage) src.level 1 1 aspect]
    | none =>
      if !mContext.headlessQueue then
        [Call.transitionImageLayout src.image .UNDEFINED
          .COLOR_ATTACHMENT_OPTIMAL src.level 1 1 aspect]
      else []
  let desiredLayout : VkImageLayout :=
    match dst.texture with
    | some dt => getTextureLayout dt.usage
    | none => mContext.swapAttachmentLayout
  match copy with
  | .error e => .error e
  | .ok c =>
    .ok ([toTransferSrc, toTransferDst, c] ++ restoreSrc ++
      [Call.transitionImageLayout dst.image .UNDEFINED desiredLayout dst.level 1 1 aspect])

/-- `VulkanBlitter::blitColor` (`FILAMENT_VULKAN_CHECK_BLIT_FORMAT` is `0`, so the
format check is compiled out). -/
def blitColor (getTextureLayout : Nat → VkImageLayout) (mContext : VulkanContext)
    (args : BlitArgs) : Except Fault (List Call) :=
  let src := args.srcTarget.getColor args.targetIndex
  let dst := args.dstTarget.getColor 0
  let aspect := VK_IMAGE_ASPECT_COLOR_BIT
  blitFast getTextureLayout mContext aspect args.filter args.srcTarget.getExtent src dst
    args.srcRectPair args.dstRectPair

/-! ## The blitter's own state, `lazyInit`, `shutdown` and the slow path -/

/-- What the collaborators of the blitter decide.  `getTextureLayout` is the
backend function of that name; `vertexModule` and `fragmentModule` are what
`vkCreateShaderModule` gives for the two stages (whether the result is
`VK_SUCCESS`, and the handle written); `gpuBuffer` is `getGpuBuffer()` of a new
`VulkanBuffer`; `VERTEX_ATTRIBUTE_COUNT` and `SAMPLER_BINDING_COUNT` are the array
sizes of `VulkanBinder`; `newDescriptors` and `newPipeline` are the results of
`getOrCreateDescriptors` and `getOrCreatePipeline`.  The last nine are the
identifiers `blitSlowDepth` uses without declaring them. -/
structure Env where
  getTextureLayout : Nat → VkImageLayout
  vertexModule : Bool × Nat
  fragmentModule : Bool × Nat
  gpuBuffer : Nat
  VERTEX_ATTRIBUTE_COUNT : Nat
  SAMPLER_BINDING_COUNT : Nat
  newDescriptors : Bool
  newPipeline : Bool
  right : Int
  x : Int
  top : Int
  y : Int
  indexCount : Nat
  instanceCount : Nat
  firstIndex : Nat
  vertexOffset : Int
  firstInstId : Nat

/-- The members of `VulkanBlitter` (null pointers and null handles are `none` and
`0`), with the context it refers to. -/
structure VulkanBlitter where
  mContext : VulkanContext
  mVertexShader : Nat
  mFragmentShader : Nat
  mTriangleVertices : Option VulkanBuffer
  mRenderPrimitive : Option VulkanRenderPrimitive
  deriving DecidableEq

/-- `VulkanBlitter::VulkanBlitter`: the constructor allocates the render primitive
(no buffers, no offsets yet); the other members start null. -/
def VulkanBlitter.new (context : VulkanContext) : VulkanBlitter :=
  { mContext := context
    mVertexShader := 0
    mFragmentShader := 0
    mTriangleVertices := none
    mRenderPrimitive := some
      { primitiveTopology := 0, buffers := [], offsets := [], varray := ⟨[], []⟩ } }

/-- `kTriangleVertices` of `lazyInit`: eight floats, 32 bytes. -/
def kTriangleVertices : List Int := [-1, -1, 1, -1, -1, 1, 1, 1]

/-- `VK_BUFFER_USAGE_VERTEX_BUFFER_BIT`. -/
def VK_BUFFER_USAGE_VERTEX_BUFFER_BIT : Nat := 0x80

/-- `VK_PRIMITIVE_TOPOLOGY_TRIANGLE_STRIP`. -/
def VK_PRIMITIVE_TOPOLOGY_TRIANGLE_STRIP : Nat := 4

/-- `VK_FORMAT_R32G32_SFLOAT`. -/
def VK_FORMAT_R32G32_SFLOAT : Nat := 103

/-- `VulkanBlitter::shutdown`. -/
def shutdown (b : VulkanBlitter) : VulkanBlitter × List Call :=
  if b.mContext.device ≠ 0 then
    ({ b with
        mVertexShader := 0
        mFragmentShader := 0
        mTriangleVertices := none
        mRenderPrimitive := none },
      [Call.vkDestroyShaderModule b.mVertexShader,
       Call.vkDestroyShaderModule b.mFragmentShader] ++
      (match b.mTriangleVertices with
       | some tv => [Call.deleteVulkanBuffer tv.gpuBuffer]
       | none => []) ++
      (match b.mRenderPrimitive with
       | some _ => [Call.deleteRenderPrimitive]
       | none => []))
  else (b, [])

/-- `VulkanBlitter::lazyInit`. -/
def lazyInit (env : Env) (b : VulkanBlitter) : Except Fault (VulkanBlitter × List Call) :=
  if b.mVertexShader ≠ 0 then .ok (b, [])
  else if b.mContext.device = 0 then .error Fault.noDevice
  else if !env.vertexModule.1 then .error Fault.vertexShaderNotCreated
  else if !env.fragmentModule.1 then .error Fault.fragmentShaderNotCreated
  else
    let triangleVertices : VulkanBuffer :=
      { gpuBuffer := env.gpuBuffer
        usage := VK_BUFFER_USAGE_VERTEX_BUFFER_BIT
        numBytes := 32
        contents := kTriangleVertices }
    match b.mRenderPrimitive with
    | none => .error Fault.nullRenderPrimitive
    | some rp =>
      let varray : VertexArray :=
        { attributes := (List.replicate env.VERTEX_ATTRIBUTE_COUNT ⟨0, 0, 0, 0⟩).set 0
            { location := 0, binding := 0, format := VK_FORMAT_R32G32_SFLOAT, offset := 0 }
          buffers := (List.replicate env.VERTEX_ATTRIBUTE_COUNT ⟨0, 0, 0⟩).set 0
            { binding := 0, stride := 4 * 2, inputRate := 0 } }
      .ok ({ b with
              mVertexShader := env.vertexModule.2
              mFragmentShader := env.fragmentModule.2
              mTriangleVertices := some triangleVertices
              mRenderPrimitive := some
                { primitiveTopology := VK_PRIMITIVE_TOPOLOGY_TRIANGLE_STRIP
                  buffers := rp.buffers ++ [triangleVertices.gpuBuffer]
                  offsets := rp.offsets ++ [0]
                  varray := varray } },
        [Call.vkCreateShaderModule true env.vertexModule.2,
         Call.vkCreateShaderModule false env.fragmentModule.2,
         Call.newVulkanBuffer VK_BUFFER_USAGE_VERTEX_BUFFER_BIT 32,
         Call.loadFromCpu kTriangleVertices 0 32])

/-- `VulkanBlitter::blitSlowDepth`. -/
def blitSlowDepth (env : Env) (b : VulkanBlitter) (_aspect : VkImageAspectFlags)
    (_filter : VkFilter) (_srcExtent : VkExtent2D) (_src _dst : VulkanAttachment)
    (_srcRect _dstRect : VkOffset3D × VkOffset3D) :
    Except Fault (VulkanBlitter × List Call) :=
  match lazyInit env b with
  | .error e => .error e
  | .ok (b1, initCalls) =>
    let rasterState : RasterState :=
      { depthStencil :=
          { depthTestEnable := false
            depthWriteEnable := true
            depthCompareOp := VkCompareOp.ALWAYS
            depthBoundsTestEnable := false
            stencilTestEnable := false }
        multisampling := { rasterizationSamples := 1, alphaToCoverageEnable := false }
        blending :=
          { blendEnable := false
            srcColorBlendFactor := 1
            dstColorBlendFactor := 1
            colorBlendOp := 0
            srcAlphaBlendFactor := 1
            dstAlphaBlendFactor := 1
            alphaBlendOp := 0
            colorWriteMask := 0xf }
        rasterization :=
          { b1.mContext.rasterState.rasterization with
            cullMode := 0
            frontFace := 0
            depthBiasEnable := false }
        colorTargetCount := 0 }
    let b2 : VulkanBlitter :=
      { b1 with mContext := { b1.mContext with rasterState := rasterState } }
    match b2.mRenderPrimitive with
    | none => .error Fault.nullRenderPrimitive
    | some rp =>
      let samplers : List VkDescriptorImageInfo :=
        List.replicate env.SAMPLER_BINDING_COUNT ⟨0, 0, VkImageLayout.UNDEFINED⟩
      let scissor : VkRect2D :=
        { offset := (0, 0)
          extent :=
            { width := (((env.right % 2 ^ 32) - env.x) % 2 ^ 32).toNat
              height := (((env.top % 2 ^ 32) - env.y) % 2 ^ 32).toNat } }
      .ok (b2,
        initCalls ++
        [Call.puts "drawing a quad...",
         Call.bindProgramBundle b2.mVertexShader b2.mFragmentShader,
         Call.bindRasterState b2.mContext.rasterState,
         Call.bindPrimitiveTopology rp.primitiveTopology,
         Call.bindVertexArray rp.varray,
         Call.bindSamplers samplers,
         Call.vkCmdSetScissor scissor,
         Call.getOrCreateDescriptors] ++
        (if env.newDescriptors then [Call.vkCmdBindDescriptorSets 3] else []) ++
        [Call.getOrCreatePipeline] ++
        (if env.newPipeline then [Call.vkCmdBindPipeline] else []) ++
        [Call.vkCmdBindVertexBuffers rp.buffers.length rp.buffers rp.offsets,
         Call.vkCmdDrawIndexed env.indexCount env.instanceCount env.firstIndex
           env.vertexOffset env.firstInstId])

/-- `VulkanBlitter::blitDepth` (the format check is compiled out). -/
def blitDepth (env : Env) (b : VulkanBlitter) (args : BlitArgs) :
    Except Fault (VulkanBlitter × List Call) :=
  let src := args.srcTarget.getDepth
  let dst := args.dstTarget.getDepth
  let aspect := VK_IMAGE_ASPECT_DEPTH_BIT
  if (match src.texture with
      | none => false
      | some st => decide (st.samples > 1) &&
          (match dst.texture with
           | none => false
           | some dt => decide (dt.samples = 1))) then
    blitSlowDepth env b aspect args.filter args.srcTarget.getExtent src dst
      args.srcRectPair args.dstRectPair
  else
    match blitFast env.getTextureLayout b.mContext aspect args.filter
        args.srcTarget.getExtent src dst args.srcRectPair args.dstRectPair with
    | .error e => .error e
    | .ok calls => .ok (b, calls)

/-! ## Reading a list of calls -/

/-- The calls of a run; a run that stopped on a fault has none. -/
def callsOf {σ : Type} (r : Except Fault (σ × List Call)) : List Call :=
  match r with
  | .ok (_, calls) => calls
  | .error _ => []

/-- A `vkCmdBlitImage`. -/
def Call.isBlit : Call → Bool
  | .vkCmdBlitImage .. => true
  | _ => false

/-- A `vkCmdResolveImage`. -/
def Call.isResolve : Call → Bool
  | .vkCmdResolveImage .. => true
  | _ => false

/-- A `vkCmdDrawIndexed`. -/
def Call.isDraw : Call → Bool
  | .vkCmdDrawIndexed .. => true
  | _ => false

/-- A layout transition. -/
def Call.isTransition : Call → Bool
  | .transitionImageLayout .. => true
  | _ => false

/-- A layout transition of the given image. -/
def Call.isTransitionOf (image : Nat) : Call → Bool
  | .transitionImageLayout i .. => decide (i = image)
  | _ => false

/-- The layout a call moves the given image to, if it is a transition of it. -/
def Call.layoutFor (image : Nat) : Call → Option VkImageLayout
  | .transitionImageLayout i _ newLayout .. => if i = image then some newLayout else none
  | _ => none

/-- The target layout of the last transition recorded for the image. -/
def lastLayout (image : Nat) (calls : List Call) : Option VkImageLayout :=
  (calls.filterMap (Call.layoutFor image)).getLast?

/-- One of the calls only `blitFast` makes: a transition, a blit or a resolve. -/
def Call.ofFastPath (c : Call) : Bool :=
  c.isTransition || c.isBlit || c.isResolve

/-- One of the calls only `blitSlowDepth` makes (what `lazyInit` does for it apart). -/
def Call.ofSlowPath : Call → Bool
  | .puts _ => true
  | .bindProgramBundle .. => true
  | .bindRasterState _ => true
  | .bindPrimitiveTopology _ => true
  | .bindVertexArray _ => true
  | .bindSamplers _ => true
  | .vkCmdSetScissor _ => true
  | .getOrCreateDescriptors => true
  | .vkCmdBindDescriptorSets _ => true
  | .getOrCreatePipeline => true
  | .vkCmdBindPipeline => true
  | .vkCmdBindVertexBuffers .. => true
  | .vkCmdDrawIndexed .. => true
  | _ => false

/-! ## Concrete inputs -/

/-- A raster state left by some earlier draw. -/
def sampleRasterState : RasterState :=
  { depthStencil := ⟨true, false, VkCompareOp.LESS, false, false⟩
    multisampling := ⟨4, false⟩
    blending := ⟨true, 1, 0, 0, 1, 0, 0, 0xf⟩
    rasterization := ⟨1, 1, true, 7⟩
    colorTargetCount := 1 }

/-- A context with a device and a window surface. -/
def sampleContext : VulkanContext :=
  { device := 1
    headlessQueue := false
    swapAttachmentLayout := VkImageLayout.COLOR_ATTACHMENT_OPTIMAL
    rasterState := sampleRasterState }

/-- The texture layout rule of the backend, as an instance of the parameter:
`GENERAL` for attachable textures (usage bits 1 and 2), read-only otherwise. -/
def sampleTextureLayout (usage : Nat) : VkImageLayout :=
  if usage % 4 = 0 then VkImageLayout.SHADER_READ_ONLY_OPTIMAL else VkImageLayout.GENERAL

/-- Collaborators that succeed. -/
def sampleEnv : Env :=
  { getTextureLayout := sampleTextureLayout
    vertexModule := (true, 11)
    fragmentModule := (true, 12)
    gpuBuffer := 21
    VERTEX_ATTRIBUTE_COUNT := 16
    SAMPLER_BINDING_COUNT := 16
    newDescriptors := true
    newPipeline := true
    right := 32
    x := 0
    top := 32
    y := 0
    indexCount := 4
    instanceCount := 1
    firstIndex := 0
    vertexOffset := 0
    firstInstId := 0 }

/-- An attachment of a texture with the given image handle, sample count and usage. -/
def textureAttachment (image samples usage : Nat) : VulkanAttachment :=
  { format := 126, image := image, texture := some ⟨samples, usage⟩, level := 0, layer := 0,
    samples := samples }

/-- An attachment of the default render target: no owning texture, one sample. -/
def defaultAttachment (image : Nat) : VulkanAttachment :=
  { format := 44, image := image, texture := none, level := 0, layer := 0, samples := 1 }

/-- A render target with the given colour and depth attachments, 64 by 64. -/
def sampleTarget (color depth : VulkanAttachment) : VulkanRenderTarget :=
  { getColor := fun _ => color, getDepth := depth, getExtent := ⟨64, 64⟩ }

/-- Blit arguments from one target to another: (0,0,0)-(64,64,1) to (0,0,0)-(32,32,1),
linear filter. -/
def sampleArgs (srcTarget dstTarget : VulkanRenderTarget) : BlitArgs :=
  { dstTarget := dstTarget
    dstRectPair := (⟨0, 0, 0⟩, ⟨32, 32, 1⟩)
    srcTarget := srcTarget
    srcRectPair := (⟨0, 0, 0⟩, ⟨64, 64, 1⟩)
    filter := VkFilter.LINEAR
    targetIndex := 0 }

/-- A four-sample offscreen target blitted to the default render target. -/
def msaaToDefaultArgs : BlitArgs :=
  sampleArgs (sampleTarget (textureAttachment 5 4 1) (textureAttachment 6 4 2))
    (sampleTarget (defaultAttachment 7) (defaultAttachment 8))

/-- A four-sample offscreen target blitted to a one-sample offscreen target. -/
def msaaToTextureArgs : BlitArgs :=
  sampleArgs (sampleTarget (textureAttachment 5 4 1) (textureAttachment 6 4 2))
    (sampleTarget (textureAttachment 7 1 1) (textureAttachment 8 1 2))

/-- A one-sample offscreen target blitted to a one-sample offscreen target. -/
def singleToTextureArgs : BlitArgs :=
  sampleArgs (sampleTarget (textureAttachment 5 1 1) (textureAttachment 6 1 2))
    (sampleTarget (textureAttachment 7 1 1) (textureAttachment 8 1 2))

/-! ## The shape of what `blitFast` records -/

/-- The condition of the resolve branch of `blitFast`, on its own. -/
def resolveCase (src dst : VulkanAttachment) : Bool :=
  match src.texture with
  | none => false
  | some st => decide (st.samples > 1) &&
      (match dst.texture with
       | none => false
       | some dt => decide (dt.samples = 1))

/-- The calls of step 5 of `blitFast`, on their own. -/
def restoreSrcCalls (getTextureLayout : Nat → VkImageLayout) (mContext : VulkanContext)
    (aspect : VkImageAspectFlags) (src : VulkanAttachment) : List Call :=
  match src.texture with
  | some st => [Call.transitionImageLayout src.image .UNDEFINED
      (getTextureLayout st.usage) src.level 1 1 aspect]
  | none =>
    if !mContext.headlessQueue then
      [Call.transitionImageLayout src.image .UNDEFINED
        .COLOR_ATTACHMENT_OPTIMAL src.level 1 1 aspect]
    else []

/-- The `desiredLayout` of `blitFast`, on its own. -/
def desiredLayout (getTextureLayout : Nat → VkImageLayout) (mContext : VulkanContext)
    (dst : VulkanAttachment) : VkImageLayout :=
  match dst.texture with
  | some dt => getTextureLayout dt.usage
  | none => mContext.swapAttachmentLayout

/-- The blit command of `blitFast`. -/
def blitCall (aspect : VkImageAspectFlags) (filter : VkFilter) (src dst : VulkanAttachment)
    (srcRect dstRect : VkOffset3D × VkOffset3D) : Call :=
  Call.vkCmdBlitImage src.image .TRANSFER_SRC_OPTIMAL dst.image .TRANSFER_DST_OPTIMAL
    [{ srcSubresource := ⟨aspect, src.level, src.layer, 1⟩
       srcOffsets := srcRect
       dstSubresource := ⟨aspect, dst.level, dst.layer, 1⟩
       dstOffsets := dstRect }] filter

/-- The resolve command of `blitFast`. -/
def resolveCall (aspect : VkImageAspectFlags) (srcExtent : VkExtent2D)
    (src dst : VulkanAttachment) (srcRect dstRect : VkOffset3D × VkOffset3D) : Call :=
  Call.vkCmdResolveImage src.image .TRANSFER_SRC_OPTIMAL dst.image .TRANSFER_DST_OPTIMAL
    [{ srcSubresource := ⟨aspect, src.level, src.layer, 1⟩
       srcOffset := srcRect.1
       dstSubresource := ⟨aspect, dst.level, dst.layer, 1⟩
       dstOffset := dstRect.1
       extent := ⟨srcExtent.width, srcExtent.height, 1⟩ }]

/-- What `blitFast` records around the copy command `c`. -/
def fastCalls (getTextureLayout : Nat → VkImageLayout) (mContext : VulkanContext)
    (aspect : VkImageAspectFlags) (src dst : VulkanAttachment) (c : Call) : List Call :=
  [Call.transitionImageLayout src.image .UNDEFINED .TRANSFER_SRC_OPTIMAL src.level 1 1 aspect,
   Call.transitionImageLayout dst.image .UNDEFINED .TRANSFER_DST_OPTIMAL dst.level 1 1 aspect,
   c] ++ restoreSrcCalls getTextureLayout mContext aspect src ++
  [Call.transitionImageLayout dst.image .UNDEFINED
    (desiredLayout getTextureLayout mContext dst) dst.level 1 1 aspect]

/-- What a call of `blitFast` recorded; nothing when it stopped on the assertion. -/
def recorded (r : Except Fault (List Call)) : List Call :=
  match r with
  | .ok calls => calls
  | .error _ => []

/-- Modelled from the spec: the swap context, whose attachment layout `blitFast` reads
through `getSwapContext(mContext).attachment.layout`, is set up outside the sources.
The specification gives the fallback layout of the default target on a surface that
is not headless as color-attachment-optimal (sections 7 and 8) and says nothing of a
headless surface.  A context is as specified when its swap attachment layout obeys
that. -/
def VulkanContext.swapContextAsSpecified (ctx : VulkanContext) : Bool :=
  ctx.headlessQueue ||
    decide (ctx.swapAttachmentLayout = VkImageLayout.COLOR_ATTACHMENT_OPTIMAL)

/-- The regions of a `vkCmdResolveImage`; none for other calls. -/
def Call.resolveRegions : Call → Option (List VkImageResolve)
  | .vkCmdResolveImage _ _ _ _ regions => some regions
  | _ => none

/-- The source side of a resolve region lies within a source of the given extent. -/
def VkImageResolve.withinSource (r : VkImageResolve) (srcExtent : VkExtent2D) : Bool :=
  decide (0 ≤ r.srcOffset.x) && decide (r.srcOffset.x + r.extent.width ≤ srcExtent.width) &&
    decide (0 ≤ r.srcOffset.y) && decide (r.srcOffset.y + r.extent.height ≤ srcExtent.height)

/-- A headless context; its swap context declares the general layout. -/
def headlessContext : VulkanContext :=
  { sampleContext with headlessQueue := true, swapAttachmentLayout := VkImageLayout.GENERAL }

/-! ## Observers of a run -/

/-- `lazyInit` called `n` times in a row, with all the calls made. -/
def lazyInitTimes (env : Env) : Nat → VulkanBlitter → Except Fault (VulkanBlitter × List Call)
  | 0, b => .ok (b, [])
  | n + 1, b =>
    match lazyInit env b with
    | .error e => .error e
    | .ok (b1, calls1) =>
      match lazyInitTimes env n b1 with
      | .error e => .error e
      | .ok (b2, calls2) => .ok (b2, calls1 ++ calls2)

/-- A `vkCreateShaderModule` for the vertex stage (`true`) or the fragment stage. -/
def Call.isCreateShader (vertexStage : Bool) : Call → Bool
  | .vkCreateShaderModule v _ => v == vertexStage
  | _ => false

/-- The creation of a `VulkanBuffer`. -/
def Call.isNewBuffer : Call → Bool
  | .newVulkanBuffer .. => true
  | _ => false

/-- The raster state the binder holds when the first draw is issued: the argument of
the last `bindRasterState` before it (`current` is what was bound before the list). -/
def rasterStateAtDraw : List Call → Option RasterState → Option RasterState
  | [], _ => none
  | Call.bindRasterState rs :: rest, _ => rasterStateAtDraw rest (some rs)
  | Call.vkCmdDrawIndexed .. :: _, current => current
  | _ :: rest, current => rasterStateAtDraw rest current

/-- The state after `lazyInit` then `shutdown` on a fresh blitter, if `lazyInit`
returned. -/
def afterInitAndShutdown (env : Env) (ctx : VulkanContext) : Option VulkanBlitter :=
  match lazyInit env (VulkanBlitter.new ctx) with
  | .ok (b1, _) => some (shutdown b1).1
  | .error _ => none

/-- A copy command: a blit or a resolve. -/
def Call.isCopy (c : Call) : Bool :=
  c.isBlit || c.isResolve

/-- A transition that covers one mip level and one layer; `true` for other calls. -/
def Call.oneLevelOneLayer : Call → Bool
  | .transitionImageLayout _ _ _ _ levelCount layerCount _ =>
    decide (levelCount = 1) && decide (layerCount = 1)
  | _ => true

/-- The descriptors of a `bindSamplers` call; none for other calls. -/
def Call.samplers : Call → Option (List VkDescriptorImageInfo)
  | .bindSamplers samplers => some samplers
  | _ => none

end Filament

namespace Gltfio

/-!
## `MorphHelper::applyWeights`: the choice of the primary indices

Weights are `float`s that the code only copies and compares (`>`, `==`); NaN apart,
that order is a linear order, and the model takes the weights in `Int`.
-/

/-- Insertion of a weight into a list in descending order. -/
def insertDescending (a : Int) : List Int → List Int
  | [] => [a]
  | b :: l => if a ≥ b then a :: b :: l else b :: insertDescending a l

/-- A list of weights in descending order. -/
def sortDescending (l : List Int) : List Int :=
  l.foldr insertDescending []

/-- What `std::nth_element(begin, begin + 4, end, a > b)` guarantees of its outcome:
a rearrangement of the range in which no element from position 4 on is greater than
one of the first four.  Which rearrangement comes out is up to the library. -/
def NthElement4 (input output : List Int) : Prop :=
  output.Perm input ∧
    ∀ i < 4, ∀ j < output.length, 4 ≤ j → output.getD j 0 ≤ output.getD i 0

/-- The selection loop of `applyWeights` (lines 72-77) from the state `index`,
`primary`, `primaryIndices`; `fuel` bounds the iterations left (the loop makes
at most `count` of them).  The index is stored in a byte. -/
def primaryLoop (weights sorted : List Int) (count primaryCount : Nat) :
    Nat → Nat → Nat → List Nat → List Nat
  | 0, _, _, primaryIndices => primaryIndices
  | fuel + 1, index, primary, primaryIndices =>
    if index < count ∧ primary < primaryCount then
      let w := weights.getD index 0
      if w > 0 ∧ (w = sorted.getD 0 0 ∨ w = sorted.getD 1 0 ∨ w = sorted.getD 2 0 ∨
          w = sorted.getD 3 0) then
        primaryLoop weights sorted count primaryCount fuel (index + 1) (primary + 1)
          (primaryIndices.set primary (index % 256))
      else
        primaryLoop weights sorted count primaryCount fuel (index + 1) primary primaryIndices
    else primaryIndices

/-- Lines 69-77 of `applyWeights`, given the weights and what the partial sort left in
`sorted`: pad `sorted` with -1 up to four entries and run the selection loop from
`{0xff, 0xff, 0xff, 0xff}`. -/
def selectPrimaryIndices (weights partlySorted : List Int) : List Nat :=
  let count := min weights.length 256
  let sorted := partlySorted ++ List.replicate (4 - partlySorted.length) (-1)
  let primaryCount := min 4 count
  primaryLoop weights sorted count primaryCount count 0 0 [0xff, 0xff, 0xff, 0xff]

/-- Lines 54-77 of `applyWeights`: the primary indices for `weights` (`count` is the
length of the list), with a full descending sort as the outcome of `nth_element`. -/
def primaryIndices (weights : List Int) : List Nat :=
  let count := min weights.length 256
  let copy := weights.take count
  let sorted := if count > 4 then sortDescending copy else copy
  selectPrimaryIndices weights sorted

/-!
## `MorphHelper::applyWeights`: the morph table and the weights handed on

Entities, renderable instances, vertex buffers and index buffers are numbers.  The
morph table is a `tsl::robin_map` (a library, not among the sources) keyed with
`MorphKeyEqualFn`; it is modelled by its contract, a list of entries in which `find`
returns the entry whose key `MorphKeyEqualFn` accepts, and `insert` of an absent key
adds an entry.
-/

/-- `MorphHelper::MorphKey`; `primaryIndices` is the `ubyte4`, four bytes. -/
structure MorphKey where
  targetEntity : Nat
  primaryIndices : List Nat
  deriving DecidableEq

/-- `MorphHelper::MorphKeyEqualFn::operator()`. -/
def MorphKeyEqualFn (k1 k2 : MorphKey) : Bool :=
  k1.targetEntity == k2.targetEntity && k1.primaryIndices == k2.primaryIndices

/-- `MorphHelper::Primitive`. -/
structure Primitive where
  vertices : Nat
  indices : Nat
  type : Nat
  deriving DecidableEq

/-- `MorphHelper::MorphValue`. -/
abbrev MorphValue := List Primitive

/-- The calls `applyWeights` makes on its collaborators, with their arguments. -/
inductive MorphCall where
  | createMorphTableEntry (entity : Nat) (primaryIndices : List Nat)
  | printf (i0 i1 i2 i3 : Nat)
  | setGeometryAt (renderable primIndex type vertices indices offset count : Nat)
  | setMorphWeights (renderable : Nat) (highestWeights : List Int)
  deriving DecidableEq

/-- What the collaborators of `applyWeights` decide: the rearrangement
`std::nth_element` leaves, `RenderableManager::getInstance`, the value
`createMorphTableEntry` builds for an entity that has a node, `IndexBuffer::getIndexCount`,
and whether `mNodeMap` holds a node (with its mesh) for an entity. -/
structure MorphEnv where
  nth_element : List Int → List Int
  getInstance : Nat → Nat
  createMorphTableEntry : Nat → List Nat → MorphValue
  getIndexCount : Nat → Nat
  hasNode : Nat → Bool

/-- The members of `MorphHelper` that `applyWeights` reads and writes. -/
structure MorphHelper where
  mPartiallySortedWeights : List Int
  mMorphTable : List (MorphKey × MorphValue)

/-- `mMorphTable.find(key)`: the entry whose key `MorphKeyEqualFn` accepts, if any. -/
def MorphHelper.find (h : MorphHelper) (key : MorphKey) : Option (MorphKey × MorphValue) :=
  h.mMorphTable.find? (fun e => MorphKeyEqualFn e.1 key)

/-- `MorphHelper::MorphHelper`: the scratch vector and the morph table start empty. -/
def MorphHelper.new : MorphHelper :=
  { mPartiallySortedWeights := [], mMorphTable := [] }

/-- What lines 54-66 of `applyWeights` leave in `sorted`: the first `count` weights,
partially sorted when there are more than four. -/
def partlySorted (env : MorphEnv) (weights : List Int) : List Int :=
  let count := min weights.length 256
  let copy := weights.take count
  if count > 4 then env.nth_element copy else copy

/-- The key `applyWeights` looks up (line 79). -/
def morphKey (env : MorphEnv) (entity : Nat) (weights : List Int) : MorphKey :=
  { targetEntity := entity
    primaryIndices := selectPrimaryIndices weights (partlySorted env weights) }

/-- The `setGeometryAt` calls of lines 89-93 for the primitives of a table entry,
from primitive index `primIndex` on. -/
def geometryCalls (env : MorphEnv) (renderable : Nat) : Nat → MorphValue → List MorphCall
  | _, [] => []
  | primIndex, prim :: rest =>
    MorphCall.setGeometryAt renderable primIndex prim.type prim.vertices prim.indices 0
      (env.getIndexCount prim.indices) :: geometryCalls env renderable (primIndex + 1) rest

/-- Lines 95-102 of `applyWeights`: the indices with `0xff` replaced by `0`, and the
weights at those indices.  This is what the lines compute when `count ≥ 1`; with
`count = 0` the code reads `weights[0]` past the array, which `applyWeightsFault`
records. -/
def highestWeights (weights : List Int) (primaryIndices : List Nat) : List Int :=
  let safeIndices := primaryIndices.map (fun i => if i = 0xff then 0 else i)
  safeIndices.map (fun i => weights.getD i 0)

/-- `MorphHelper::applyWeights`; `weights` holds the `count` weights of the caller.
This is what a call does that stays within defined behaviour; `applyWeightsFault` says
when a call does not. -/
def applyWeights (env : MorphEnv) (h : MorphHelper) (entity : Nat) (weights : List Int) :
    MorphHelper × List MorphCall :=
  let renderable := env.getInstance entity
  let sorted := partlySorted env weights
  let primaryIndices := selectPrimaryIndices weights sorted
  let key : MorphKey := { targetEntity := entity, primaryIndices := primaryIndices }
  let found := h.find key
  let inserted : List (MorphKey × MorphValue) × MorphValue × List MorphCall :=
    match found with
    | some e => (h.mMorphTable, e.2, [])
    | none =>
      let val := env.createMorphTableEntry entity primaryIndices
      (h.mMorphTable ++ [(key, val)], val,
        [MorphCall.createMorphTableEntry entity primaryIndices,
         MorphCall.printf (primaryIndices.getD 0 0) (primaryIndices.getD 1 0)
           (primaryIndices.getD 2 0) (primaryIndices.getD 3 0)])
  ({ mPartiallySortedWeights := sorted ++ List.replicate (4 - sorted.length) (-1)
     mMorphTable := inserted.1 },
    inserted.2.2 ++ geometryCalls env renderable 0 inserted.2.1 ++
      [MorphCall.setMorphWeights renderable (highestWeights weights primaryIndices)])

/-- A sequence of `applyWeights` calls, one per (entity, weights) pair, with all the
calls made. -/
def applyWeightsAll (env : MorphEnv) : MorphHelper → List (Nat × List Int) →
    MorphHelper × List MorphCall
  | h, [] => (h, [])
  | h, (entity, weights) :: rest =>
    let first := applyWeights env h entity weights
    let others := applyWeightsAll env first.1 rest
    (others.1, first.2 ++ others.2)

/-- What takes a call of `applyWeights` out of defined behaviour. -/
inductive MorphFault where
  | nullNode
  | readPastWeights
  deriving DecidableEq

/-- The fault a call of `applyWeights` runs into, if any: `createMorphTableEntry`
(reached when the key is absent) dereferences `mNodeMap[entity]`, which is null for an
entity without a node (lines 113-114); lines 97-102 read `weights[0]` for every unused
slot, which is past the array when `count = 0`. -/
def applyWeightsFault (env : MorphEnv) (h : MorphHelper) (entity : Nat)
    (weights : List Int) : Option MorphFault :=
  if (h.find (morphKey env entity weights)).isNone && !env.hasNode entity then
    some MorphFault.nullNode
  else if weights.isEmpty then some MorphFault.readPastWeights
  else none

/-- The first fault a sequence of `applyWeights` calls runs into, if any. -/
def applyWeightsAllFault (env : MorphEnv) : MorphHelper → List (Nat × List Int) →
    Option MorphFault
  | _, [] => none
  | h, (entity, weights) :: rest =>
    match applyWeightsFault env h entity weights with
    | some fault => some fault
    | none => applyWeightsAllFault env (applyWeights env h entity weights).1 rest

/-- A `createMorphTableEntry` call. -/
def MorphCall.isCreate : MorphCall → Bool
  | .createMorphTableEntry .. => true
  | _ => false

/-- A `createMorphTableEntry` call for the given key. -/
def MorphCall.isCreateFor (k : MorphKey) : MorphCall → Bool
  | .createMorphTableEntry entity primaryIndices =>
      decide (entity = k.targetEntity) && decide (primaryIndices = k.primaryIndices)
  | _ => false

/-- The weights passed to `setMorphWeights`, if the call is one. -/
def MorphCall.morphWeights : MorphCall → Option (List Int)
  | .setMorphWeights _ w => some w
  | _ => none

/-- The selection loop of `applyWeights` again, keeping for each slot the index the
loop chose for it (in slot order) instead of the byte stored. -/
def chosenLoop (weights sorted : List Int) (count primaryCount : Nat) :
    Nat → Nat → Nat → List Nat → List Nat
  | 0, _, _, chosen => chosen
  | fuel + 1, index, primary, chosen =>
    if index < count ∧ primary < primaryCount then
      let w := weights.getD index 0
      if w > 0 ∧ (w = sorted.getD 0 0 ∨ w = sorted.getD 1 0 ∨ w = sorted.getD 2 0 ∨
          w = sorted.getD 3 0) then
        chosenLoop weights sorted count primaryCount fuel (index + 1) (primary + 1)
          (chosen ++ [index])
      else
        chosenLoop weights sorted count primaryCount fuel (index + 1) primary chosen
    else chosen

/-- The indices the selection loop of `applyWeights` chose, slot by slot. -/
def chosenIndices (env : MorphEnv) (weights : List Int) : List Nat :=
  let count := min weights.length 256
  let sorted := partlySorted env weights
  let padded := sorted ++ List.replicate (4 - sorted.length) (-1)
  chosenLoop weights padded count (min 4 count) count 0 0 []

/-- Collaborators for the concrete runs: `nth_element` sorts in descending order, an
entity is its own renderable instance, each table entry has one primitive, the
entities below 100 have a node. -/
def sampleMorphEnv : MorphEnv :=
  { nth_element := sortDescending
    getInstance := fun entity => entity
    createMorphTableEntry := fun entity primaryIndices =>
      [{ vertices := entity + primaryIndices.sum, indices := 3, type := 4 }]
    getIndexCount := fun _ => 36
    hasNode := fun entity => decide (entity < 100) }

/-- 256 weights, all zero but the last, which is 1. -/
def lastOfMaxWeights : List Int :=
  List.replicate 255 0 ++ [1]

end Gltfio

namespace Filament

/-! ## Shared facts about the calls of each path -/

theorem lazyInit_calls_not_fast (env : Env) (b b1 : VulkanBlitter) (calls : List Call)
    (h : lazyInit env b = .ok (b1, calls)) : ∀ c ∈ calls, c.ofFastPath = false := by
  unfold lazyInit at h
  split_ifs at h
  · cases h; simp
  · split at h
    · cases h
    · cases h
      intro c hc
      simp at hc
      rcases hc with rfl | rfl | rfl | rfl <;> rfl

theorem blitSlowDepth_calls_not_fast (env : Env) (b : VulkanBlitter) (aspect : VkImageAspectFlags)
    (filter : VkFilter) (ext : VkExtent2D) (src dst : VulkanAttachment)
    (sr dr : VkOffset3D × VkOffset3D) :
    ∀ c ∈ callsOf (blitSlowDepth env b aspect filter ext src dst sr dr),
      c.ofFastPath = false := by
  unfold blitSlowDepth
  cases hinit : lazyInit env b with
  | error e => simp [callsOf]
  | ok r =>
    obtain ⟨b1, initCalls⟩ := r
    have hi := lazyInit_calls_not_fast env b b1 initCalls hinit
    cases hrp : b1.mRenderPrimitive with
    | none => simp [callsOf, hrp]
    | some rp =>
      simp only [hrp, callsOf]
      intro c hc
      simp only [List.mem_append, List.mem_cons, List.mem_singleton, List.not_mem_nil,
        or_false] at hc
      rcases hc with (((((hc | hc) | hc) | hc) | hc) | hc)
      · exact hi c hc
      · rcases hc with rfl | rfl | rfl | rfl | rfl | rfl | rfl | rfl <;> rfl
      · split_ifs at hc
        · simp at hc; subst hc; rfl
        · simp at hc
      · subst hc; rfl
      · split_ifs at hc
        · simp at hc; subst hc; rfl
        · simp at hc
      · rcases hc with rfl | rfl <;> rfl

theorem blitFast_calls_fast (gtl : Nat → VkImageLayout) (ctx : VulkanContext)
    (aspect : VkImageAspectFlags) (filter : VkFilter) (ext : VkExtent2D)
    (src dst : VulkanAttachment) (sr dr : VkOffset3D × VkOffset3D) (calls : List Call)
    (h : blitFast gtl ctx aspect filter ext src dst sr dr = .ok calls) :
    ∀ c ∈ calls, c.ofFastPath = true ∧ c.ofSlowPath = false := by
  unfold blitFast at h
  simp only at h
  split at h
  · cases h
  · rename_i c0 hc0
    cases h
    intro c hc
    have hc0f : c0.ofFastPath = true ∧ c0.ofSlowPath = false := by
      split_ifs at hc0 <;> cases hc0 <;> exact ⟨rfl, rfl⟩
    simp only [List.mem_append, List.mem_cons, List.mem_singleton, List.not_mem_nil,
      or_false] at hc
    rcases hc with ((hc | hc | hc) | hc) | hc
    · subst hc; exact ⟨rfl, rfl⟩
    · subst hc; exact ⟨rfl, rfl⟩
    · subst hc; exact hc0f
    · split at hc
      · simp at hc; subst hc; exact ⟨rfl, rfl⟩
      · split_ifs at hc
        · simp at hc; subst hc; exact ⟨rfl, rfl⟩
        · simp at hc
    · subst hc; exact ⟨rfl, rfl⟩

theorem blitDepth_condition_cases (env : Env) (b : VulkanBlitter)
    (args : BlitArgs) :
    ((∃ st dt, args.srcTarget.getDepth.texture = some st ∧
        args.dstTarget.getDepth.texture = some dt ∧ st.samples > 1 ∧ dt.samples = 1) →
      blitDepth env b args =
        blitSlowDepth env b VK_IMAGE_ASPECT_DEPTH_BIT args.filter args.srcTarget.getExtent
          args.srcTarget.getDepth args.dstTarget.getDepth args.srcRectPair args.dstRectPair) ∧
    ((¬ ∃ st dt, args.srcTarget.getDepth.texture = some st ∧
        args.dstTarget.getDepth.texture = some dt ∧ st.samples > 1 ∧ dt.samples = 1) →
      (match args.srcTarget.getDepth.texture with
        | none => false
        | some st => decide (st.samples > 1) &&
            (match args.dstTarget.getDepth.texture with
             | none => false
             | some dt => decide (dt.samples = 1))) = false) := by
  constructor
  · rintro ⟨st, dt, hs, hd, h1, h2⟩
    simp [blitDepth, hs, hd, h1, h2]
  · intro hno
    cases hs : args.srcTarget.getDepth.texture with
    | none => rfl
    | some st =>
      cases hd : args.dstTarget.getDepth.texture with
      | none => simp
      | some dt =>
        simp only [Bool.and_eq_false_imp, decide_eq_true_eq, decide_eq_false_iff_not]
        intro h1 h2
        exact hno ⟨st, dt, hs, hd, h1, h2⟩

/-! ## C1: the dispatch of `blitDepth` -/

/-- C1, as stated, fails: a four-sample depth attachment blitted to the depth
attachment of the default render target (one sample, no owning texture) has source
sample count > 1 and destination sample count 1, both attachments are consistent,
and yet `blitDepth` takes the fast path: it records a `vkCmdBlitImage` and makes no
call of the slow path. -/
theorem blitDepth_default_destination_counterexample :
    msaaToDefaultArgs.srcTarget.getDepth.consistent = true ∧
    msaaToDefaultArgs.dstTarget.getDepth.consistent = true ∧
    msaaToDefaultArgs.srcTarget.getDepth.samples > 1 ∧
    msaaToDefaultArgs.dstTarget.getDepth.samples = 1 ∧
    (callsOf (blitDepth sampleEnv (VulkanBlitter.new sampleContext) msaaToDefaultArgs)).any
      Call.isBlit = true ∧
    (callsOf (blitDepth sampleEnv (VulkanBlitter.new sampleContext) msaaToDefaultArgs)).any
      Call.ofSlowPath = false := by
  decide

/-- C1, amended: `blitDepth` takes the slow path (it is `blitSlowDepth` on the same
arguments, and none of its calls is a transition, blit or resolve) exactly when both
depth attachments have an owning texture, the source texture has more than one sample
and the destination texture has one; in every other case, a null owning texture
included, it is `blitFast`, which returns, and no call of the slow path is made. -/
theorem blitDepth_routes_by_owning_textures (env : Env) (b : VulkanBlitter) (args : BlitArgs) :
    ((∃ st dt, args.srcTarget.getDepth.texture = some st ∧
        args.dstTarget.getDepth.texture = some dt ∧ st.samples > 1 ∧ dt.samples = 1) →
      blitDepth env b args =
        blitSlowDepth env b VK_IMAGE_ASPECT_DEPTH_BIT args.filter args.srcTarget.getExtent
          args.srcTarget.getDepth args.dstTarget.getDepth args.srcRectPair args.dstRectPair ∧
      ∀ c ∈ callsOf (blitDepth env b args), c.ofFastPath = false) ∧
    ((¬ ∃ st dt, args.srcTarget.getDepth.texture = some st ∧
        args.dstTarget.getDepth.texture = some dt ∧ st.samples > 1 ∧ dt.samples = 1) →
      ∃ calls,
        blitFast env.getTextureLayout b.mContext VK_IMAGE_ASPECT_DEPTH_BIT args.filter
          args.srcTarget.getExtent args.srcTarget.getDepth args.dstTarget.getDepth
          args.srcRectPair args.dstRectPair = .ok calls ∧
        blitDepth env b args = .ok (b, calls) ∧
        ∀ c ∈ calls, c.ofFastPath = true ∧ c.ofSlowPath = false) := by
  constructor
  · intro hyes
    have hroute := (blitDepth_condition_cases env b args).1 hyes
    refine ⟨hroute, ?_⟩
    rw [hroute]
    exact blitSlowDepth_calls_not_fast _ _ _ _ _ _ _ _ _
  · intro hno
    have hcond := (blitDepth_condition_cases env b args).2 hno
    have hfast : ∃ calls, blitFast env.getTextureLayout b.mContext VK_IMAGE_ASPECT_DEPTH_BIT
        args.filter args.srcTarget.getExtent args.srcTarget.getDepth args.dstTarget.getDepth
        args.srcRectPair args.dstRectPair = .ok calls := by
      unfold blitFast
      simp only [hcond]
      exact ⟨_, rfl⟩
    obtain ⟨calls, hcalls⟩ := hfast
    refine ⟨calls, hcalls, ?_, blitFast_calls_fast _ _ _ _ _ _ _ _ _ _ hcalls⟩
    unfold blitDepth
    simp only [hcond, hcalls]
    rfl

/-- C1, amended, at concrete inputs: four samples to a one-sample texture goes to the
slow path, four samples to the default render target goes to the fast path. -/
theorem blitDepth_routes_by_owning_textures_witness :
    (blitDepth sampleEnv (VulkanBlitter.new sampleContext) msaaToTextureArgs =
        blitSlowDepth sampleEnv (VulkanBlitter.new sampleContext) VK_IMAGE_ASPECT_DEPTH_BIT
          msaaToTextureArgs.filter msaaToTextureArgs.srcTarget.getExtent
          msaaToTextureArgs.srcTarget.getDepth msaaToTextureArgs.dstTarget.getDepth
          msaaToTextureArgs.srcRectPair msaaToTextureArgs.dstRectPair ∧
      ∀ c ∈ callsOf (blitDepth sampleEnv (VulkanBlitter.new sampleContext) msaaToTextureArgs),
        c.ofFastPath = false) ∧
    (∃ calls,
        blitFast sampleEnv.getTextureLayout (VulkanBlitter.new sampleContext).mContext
          VK_IMAGE_ASPECT_DEPTH_BIT msaaToDefaultArgs.filter
          msaaToDefaultArgs.srcTarget.getExtent msaaToDefaultArgs.srcTarget.getDepth
          msaaToDefaultArgs.dstTarget.getDepth msaaToDefaultArgs.srcRectPair
          msaaToDefaultArgs.dstRectPair = .ok calls ∧
        blitDepth sampleEnv (VulkanBlitter.new sampleContext) msaaToDefaultArgs =
          .ok (VulkanBlitter.new sampleContext, calls) ∧
        ∀ c ∈ calls, c.ofFastPath = true ∧ c.ofSlowPath = false) :=
  ⟨(blitDepth_routes_by_owning_textures sampleEnv (VulkanBlitter.new sampleContext)
      msaaToTextureArgs).1 ⟨⟨4, 2⟩, ⟨1, 2⟩, rfl, rfl, by decide, by decide⟩,
   (blitDepth_routes_by_owning_textures sampleEnv (VulkanBlitter.new sampleContext)
      msaaToDefaultArgs).2 (by
        rintro ⟨st, dt, _, hd, _⟩
        simp [msaaToDefaultArgs, sampleArgs, sampleTarget, defaultAttachment] at hd)⟩

/-! ## The shape of what `blitFast` records, proved -/

theorem resolveCase_iff (src dst : VulkanAttachment) :
    resolveCase src dst = true ↔
      ∃ st dt, src.texture = some st ∧ dst.texture = some dt ∧ st.samples > 1 ∧
        dt.samples = 1 := by
  unfold resolveCase
  cases hs : src.texture with
  | none => simp
  | some st =>
    cases hd : dst.texture with
    | none => simp
    | some dt => simp

theorem blitFast_eq (gtl : Nat → VkImageLayout) (ctx : VulkanContext)
    (aspect : VkImageAspectFlags) (filter : VkFilter) (ext : VkExtent2D)
    (src dst : VulkanAttachment) (sr dr : VkOffset3D × VkOffset3D) :
    blitFast gtl ctx aspect filter ext src dst sr dr =
      if resolveCase src dst then
        if aspect ≠ VK_IMAGE_ASPECT_DEPTH_BIT then
          .ok (fastCalls gtl ctx aspect src dst (resolveCall aspect ext src dst sr dr))
        else .error Fault.resolveWithDepth
      else .ok (fastCalls gtl ctx aspect src dst (blitCall aspect filter src dst sr dr)) := by
  unfold blitFast resolveCase fastCalls restoreSrcCalls desiredLayout resolveCall blitCall
  simp only
  split_ifs <;> rfl

theorem restoreSrcCalls_transitions (gtl : Nat → VkImageLayout) (ctx : VulkanContext)
    (aspect : VkImageAspectFlags) (src : VulkanAttachment) :
    ∀ c ∈ restoreSrcCalls gtl ctx aspect src, c.isTransitionOf src.image = true := by
  intro c hc
  unfold restoreSrcCalls at hc
  split at hc
  · simp at hc; subst hc; simp [Call.isTransitionOf]
  · split_ifs at hc
    · simp at hc; subst hc; simp [Call.isTransitionOf]
    · simp at hc

theorem restoreSrcCalls_countP_eq_zero (gtl : Nat → VkImageLayout) (ctx : VulkanContext)
    (aspect : VkImageAspectFlags) (src : VulkanAttachment) (p : Call → Bool)
    (hp : ∀ c, c.isTransition = true → p c = false) :
    (restoreSrcCalls gtl ctx aspect src).countP p = 0 := by
  rw [List.countP_eq_zero]
  intro c hc
  have ht : c.isTransition = true := by
    have := restoreSrcCalls_transitions gtl ctx aspect src c hc
    cases c <;> simp_all [Call.isTransitionOf, Call.isTransition]
  simp [hp c ht]

theorem isBlit_of_isTransition (c : Call) (h : c.isTransition = true) : c.isBlit = false := by
  cases c <;> simp_all [Call.isTransition, Call.isBlit]

theorem isResolve_of_isTransition (c : Call) (h : c.isTransition = true) :
    c.isResolve = false := by
  cases c <;> simp_all [Call.isTransition, Call.isResolve]

theorem fastCalls_countP (gtl : Nat → VkImageLayout) (ctx : VulkanContext)
    (aspect : VkImageAspectFlags) (src dst : VulkanAttachment) (c : Call) (p : Call → Bool)
    (hp : ∀ c, c.isTransition = true → p c = false) :
    (fastCalls gtl ctx aspect src dst c).countP p = if p c then 1 else 0 := by
  unfold fastCalls
  rw [List.countP_append, List.countP_append,
    restoreSrcCalls_countP_eq_zero gtl ctx aspect src p hp]
  simp [List.countP_cons, hp, Call.isTransition]

/-! ## C2: colour blits between attachments of the same sample count -/

/-- C2: when the source and destination colour attachments are consistent and have the
same sample count, `blitColor` returns, and what it records contains exactly one blit
command, which carries `args.srcRectPair`, `args.dstRectPair` and `args.filter`, and no
resolve command. -/
theorem blitColor_same_samples_blits (gtl : Nat → VkImageLayout) (ctx : VulkanContext)
    (args : BlitArgs)
    (hsrc : (args.srcTarget.getColor args.targetIndex).consistent = true)
    (hdst : (args.dstTarget.getColor 0).consistent = true)
    (hsame : (args.srcTarget.getColor args.targetIndex).samples =
      (args.dstTarget.getColor 0).samples) :
    ∃ calls, blitColor gtl ctx args = .ok calls ∧
      calls.countP Call.isBlit = 1 ∧
      calls.countP Call.isResolve = 0 ∧
      ∀ c ∈ calls, c.isBlit = true →
        ∃ region, c = Call.vkCmdBlitImage (args.srcTarget.getColor args.targetIndex).image
            .TRANSFER_SRC_OPTIMAL (args.dstTarget.getColor 0).image .TRANSFER_DST_OPTIMAL
            [region] args.filter ∧
          region.srcOffsets = args.srcRectPair ∧ region.dstOffsets = args.dstRectPair := by
  have hcase : resolveCase (args.srcTarget.getColor args.targetIndex)
      (args.dstTarget.getColor 0) = false := by
    rw [Bool.eq_false_iff]
    intro h
    obtain ⟨st, dt, hs, hd, h1, h2⟩ := (resolveCase_iff _ _).1 h
    simp only [VulkanAttachment.consistent, hs, hd, decide_eq_true_eq] at hsrc hdst
    omega
  refine ⟨fastCalls gtl ctx VK_IMAGE_ASPECT_COLOR_BIT (args.srcTarget.getColor args.targetIndex)
    (args.dstTarget.getColor 0) (blitCall VK_IMAGE_ASPECT_COLOR_BIT args.filter
      (args.srcTarget.getColor args.targetIndex) (args.dstTarget.getColor 0)
      args.srcRectPair args.dstRectPair), ?_, ?_, ?_, ?_⟩
  · unfold blitColor
    simp only
    rw [blitFast_eq, hcase]
    rfl
  · rw [fastCalls_countP _ _ _ _ _ _ _ isBlit_of_isTransition]
    rfl
  · rw [fastCalls_countP _ _ _ _ _ _ _ isResolve_of_isTransition]
    rfl
  · intro c hc hb
    have hnb : ∀ c' ∈ restoreSrcCalls gtl ctx VK_IMAGE_ASPECT_COLOR_BIT
        (args.srcTarget.getColor args.targetIndex), c'.isBlit = false := by
      intro c' hc'
      have := restoreSrcCalls_transitions _ _ _ _ c' hc'
      cases c' <;> simp_all [Call.isTransitionOf, Call.isBlit]
    simp only [fastCalls, List.mem_append, List.mem_cons, List.mem_singleton,
      List.not_mem_nil, or_false] at hc
    rcases hc with ((hc | hc | hc) | hc) | hc
    · subst hc; simp [Call.isBlit] at hb
    · subst hc; simp [Call.isBlit] at hb
    · subst hc; exact ⟨_, rfl, rfl, rfl⟩
    · rw [hnb c hc] at hb; cases hb
    · subst hc; simp [Call.isBlit] at hb

/-- C2 at the scenario of the specification: one sample to one sample,
(0,0,0)-(64,64,1) to (0,0,0)-(32,32,1), linear filter. -/
theorem blitColor_same_samples_blits_witness :
    ∃ calls, blitColor sampleTextureLayout sampleContext singleToTextureArgs = .ok calls ∧
      calls.countP Call.isBlit = 1 ∧
      calls.countP Call.isResolve = 0 ∧
      ∀ c ∈ calls, c.isBlit = true →
        ∃ region, c = Call.vkCmdBlitImage
            (singleToTextureArgs.srcTarget.getColor singleToTextureArgs.targetIndex).image
            .TRANSFER_SRC_OPTIMAL (singleToTextureArgs.dstTarget.getColor 0).image
            .TRANSFER_DST_OPTIMAL [region] singleToTextureArgs.filter ∧
          region.srcOffsets = singleToTextureArgs.srcRectPair ∧
          region.dstOffsets = singleToTextureArgs.dstRectPair :=
  blitColor_same_samples_blits sampleTextureLayout sampleContext singleToTextureArgs
    (by decide) (by decide) (by decide)

/-! ## C3: colour resolve -/

/-- C3, as stated, fails: a four-sample colour attachment blitted to the colour
attachment of the default render target (one sample, no owning texture) has source
sample count > 1 and destination sample count 1, yet `blitFast` records one
`vkCmdBlitImage` and no resolve. -/
theorem blitFast_default_destination_counterexample :
    (textureAttachment 5 4 1).consistent = true ∧
    (defaultAttachment 7).consistent = true ∧
    (textureAttachment 5 4 1).samples > 1 ∧
    (defaultAttachment 7).samples = 1 ∧
    (recorded (blitFast sampleTextureLayout sampleContext VK_IMAGE_ASPECT_COLOR_BIT
      VkFilter.LINEAR ⟨64, 64⟩ (textureAttachment 5 4 1) (defaultAttachment 7)
      (⟨0, 0, 0⟩, ⟨64, 64, 1⟩) (⟨0, 0, 0⟩, ⟨32, 32, 1⟩))).countP Call.isResolve = 0 ∧
    (recorded (blitFast sampleTextureLayout sampleContext VK_IMAGE_ASPECT_COLOR_BIT
      VkFilter.LINEAR ⟨64, 64⟩ (textureAttachment 5 4 1) (defaultAttachment 7)
      (⟨0, 0, 0⟩, ⟨64, 64, 1⟩) (⟨0, 0, 0⟩, ⟨32, 32, 1⟩))).countP Call.isBlit = 1 := by
  decide

/-- C3, amended: for a colour blit whose source and destination attachments both have
an owning texture, the source texture with more than one sample and the destination
texture with one, `blitFast` returns and records exactly one resolve command, whose
extent is (srcExtent.width, srcExtent.height, 1), and no blit command. -/
theorem blitFast_color_resolve (gtl : Nat → VkImageLayout) (ctx : VulkanContext)
    (filter : VkFilter) (srcExtent : VkExtent2D) (src dst : VulkanAttachment)
    (srcRect dstRect : VkOffset3D × VkOffset3D) (st dt : VulkanTexture)
    (hs : src.texture = some st) (hd : dst.texture = some dt)
    (h1 : st.samples > 1) (h2 : dt.samples = 1) :
    ∃ calls, blitFast gtl ctx VK_IMAGE_ASPECT_COLOR_BIT filter srcExtent src dst srcRect
        dstRect = .ok calls ∧
      calls.countP Call.isResolve = 1 ∧
      calls.countP Call.isBlit = 0 ∧
      ∀ c ∈ calls, c.isResolve = true →
        ∃ region, c = Call.vkCmdResolveImage src.image .TRANSFER_SRC_OPTIMAL dst.image
            .TRANSFER_DST_OPTIMAL [region] ∧
          region.extent = ⟨srcExtent.width, srcExtent.height, 1⟩ := by
  have hcase : resolveCase src dst = true := (resolveCase_iff _ _).2 ⟨st, dt, hs, hd, h1, h2⟩
  refine ⟨fastCalls gtl ctx VK_IMAGE_ASPECT_COLOR_BIT src dst
    (resolveCall VK_IMAGE_ASPECT_COLOR_BIT srcExtent src dst srcRect dstRect), ?_, ?_, ?_, ?_⟩
  · rw [blitFast_eq, hcase]
    rfl
  · rw [fastCalls_countP _ _ _ _ _ _ _ isResolve_of_isTransition]
    rfl
  · rw [fastCalls_countP _ _ _ _ _ _ _ isBlit_of_isTransition]
    rfl
  · intro c hc hr
    have hnr : ∀ c' ∈ restoreSrcCalls gtl ctx VK_IMAGE_ASPECT_COLOR_BIT src,
        c'.isResolve = false := by
      intro c' hc'
      have := restoreSrcCalls_transitions _ _ _ _ c' hc'
      cases c' <;> simp_all [Call.isTransitionOf, Call.isResolve]
    simp only [fastCalls, List.mem_append, List.mem_cons, List.mem_singleton,
      List.not_mem_nil, or_false] at hc
    rcases hc with ((hc | hc | hc) | hc) | hc
    · subst hc; simp [Call.isResolve] at hr
    · subst hc; simp [Call.isResolve] at hr
    · subst hc; exact ⟨_, rfl, rfl⟩
    · rw [hnr c hc] at hr; cases hr
    · subst hc; simp [Call.isResolve] at hr

/-- C3, amended, at a concrete input: a four-sample texture resolved to a one-sample
texture. -/
theorem blitFast_color_resolve_witness :
    ∃ calls, blitFast sampleTextureLayout sampleContext VK_IMAGE_ASPECT_COLOR_BIT
        VkFilter.LINEAR ⟨64, 64⟩ (textureAttachment 5 4 1) (textureAttachment 7 1 1)
        (⟨0, 0, 0⟩, ⟨64, 64, 1⟩) (⟨0, 0, 0⟩, ⟨32, 32, 1⟩) = .ok calls ∧
      calls.countP Call.isResolve = 1 ∧
      calls.countP Call.isBlit = 0 ∧
      ∀ c ∈ calls, c.isResolve = true →
        ∃ region, c = Call.vkCmdResolveImage (textureAttachment 5 4 1).image
            .TRANSFER_SRC_OPTIMAL (textureAttachment 7 1 1).image .TRANSFER_DST_OPTIMAL
            [region] ∧
          region.extent = ⟨64, 64, 1⟩ :=
  blitFast_color_resolve sampleTextureLayout sampleContext VkFilter.LINEAR ⟨64, 64⟩
    (textureAttachment 5 4 1) (textureAttachment 7 1 1) (⟨0, 0, 0⟩, ⟨64, 64, 1⟩)
    (⟨0, 0, 0⟩, ⟨32, 32, 1⟩) ⟨4, 1⟩ ⟨1, 1⟩ rfl rfl (by decide) rfl

/-! ## C4: the offsets of the resolve region -/

theorem blitFast_resolve_region_shape (gtl : Nat → VkImageLayout) (ctx : VulkanContext)
    (aspect : VkImageAspectFlags) (filter : VkFilter) (srcExtent : VkExtent2D)
    (src dst : VulkanAttachment) (srcRect dstRect : VkOffset3D × VkOffset3D)
    (calls : List Call)
    (h : blitFast gtl ctx aspect filter srcExtent src dst srcRect dstRect = .ok calls)
    (c : Call) (hc : c ∈ calls) (hr : c.isResolve = true) :
    ∃ region, c = Call.vkCmdResolveImage src.image .TRANSFER_SRC_OPTIMAL dst.image
        .TRANSFER_DST_OPTIMAL [region] ∧
      region.srcOffset = srcRect.1 ∧ region.dstOffset = dstRect.1 ∧
      region.extent = ⟨srcExtent.width, srcExtent.height, 1⟩ := by
  have hnr : ∀ c' ∈ restoreSrcCalls gtl ctx aspect src, c'.isResolve = false := by
    intro c' hc'
    have := restoreSrcCalls_transitions _ _ _ _ c' hc'
    cases c' <;> simp_all [Call.isTransitionOf, Call.isResolve]
  rw [blitFast_eq] at h
  split_ifs at h with h1 h2
  · cases h
    simp only [fastCalls, List.mem_append, List.mem_cons, List.mem_singleton,
      List.not_mem_nil, or_false] at hc
    rcases hc with ((hc | hc | hc) | hc) | hc
    · subst hc; simp [Call.isResolve] at hr
    · subst hc; simp [Call.isResolve] at hr
    · subst hc; exact ⟨_, rfl, rfl, rfl, rfl⟩
    · rw [hnr c hc] at hr; cases hr
    · subst hc; simp [Call.isResolve] at hr
  · cases h
    simp only [fastCalls, List.mem_append, List.mem_cons, List.mem_singleton,
      List.not_mem_nil, or_false] at hc
    rcases hc with ((hc | hc | hc) | hc) | hc
    · subst hc; simp [Call.isResolve] at hr
    · subst hc; simp [Call.isResolve] at hr
    · subst hc; simp [Call.isResolve, blitCall] at hr
    · rw [hnr c hc] at hr; cases hr
    · subst hc; simp [Call.isResolve] at hr

/-- C4 fails on the code: resolving a 64 by 64 four-sample texture with rectangles that
start at (8,8,0) and (4,4,0) records one resolve whose region has source offset (8,8,0)
and destination offset (4,4,0), not (0,0,0), with the full source extent, so the
region leaves the source (8 + 64 > 64).  Whenever the rectangles passed in start at
the origin, the offsets of every resolve region are (0,0,0) and the region lies
within the source. -/
theorem blitFast_resolve_leaves_source :
    (recorded (blitFast sampleTextureLayout sampleContext VK_IMAGE_ASPECT_COLOR_BIT
      VkFilter.NEAREST ⟨64, 64⟩ (textureAttachment 5 4 1) (textureAttachment 7 1 1)
      (⟨8, 8, 0⟩, ⟨64, 64, 1⟩) (⟨4, 4, 0⟩, ⟨32, 32, 1⟩))).filterMap Call.resolveRegions =
      [[{ srcSubresource := ⟨1, 0, 0, 1⟩
          srcOffset := ⟨8, 8, 0⟩
          dstSubresource := ⟨1, 0, 0, 1⟩
          dstOffset := ⟨4, 4, 0⟩
          extent := ⟨64, 64, 1⟩ }]] ∧
    (∀ regions ∈ (recorded (blitFast sampleTextureLayout sampleContext
        VK_IMAGE_ASPECT_COLOR_BIT VkFilter.NEAREST ⟨64, 64⟩ (textureAttachment 5 4 1)
        (textureAttachment 7 1 1) (⟨8, 8, 0⟩, ⟨64, 64, 1⟩)
        (⟨4, 4, 0⟩, ⟨32, 32, 1⟩))).filterMap Call.resolveRegions,
      ∀ r ∈ regions, r.srcOffset ≠ ⟨0, 0, 0⟩ ∧ r.dstOffset ≠ ⟨0, 0, 0⟩ ∧
        r.withinSource ⟨64, 64⟩ = false) ∧
    (∀ (gtl : Nat → VkImageLayout) (ctx : VulkanContext) (aspect : VkImageAspectFlags)
        (filter : VkFilter) (srcExtent : VkExtent2D) (src dst : VulkanAttachment)
        (srcRect dstRect : VkOffset3D × VkOffset3D) (calls : List Call),
      blitFast gtl ctx aspect filter srcExtent src dst srcRect dstRect = .ok calls →
      srcRect.1 = ⟨0, 0, 0⟩ → dstRect.1 = ⟨0, 0, 0⟩ →
      ∀ regions ∈ calls.filterMap Call.resolveRegions,
        ∀ r ∈ regions, r.srcOffset = ⟨0, 0, 0⟩ ∧ r.dstOffset = ⟨0, 0, 0⟩ ∧
          r.withinSource srcExtent = true) := by
  refine ⟨by decide, by decide, ?_⟩
  intro gtl ctx aspect filter srcExtent src dst srcRect dstRect calls hcalls hsrc hdst
    regions hregions r hr
  rw [List.mem_filterMap] at hregions
  obtain ⟨c, hc, hcr⟩ := hregions
  have hres : c.isResolve = true := by
    cases c <;> simp_all [Call.resolveRegions, Call.isResolve]
  obtain ⟨region, hceq, h1, h2, h3⟩ := blitFast_resolve_region_shape gtl ctx aspect filter
    srcExtent src dst srcRect dstRect calls hcalls c hc hres
  subst hceq
  simp only [Call.resolveRegions, Option.some.injEq] at hcr
  subst hcr
  simp only [List.mem_singleton] at hr
  subst hr
  refine ⟨h1.trans hsrc, h2.trans hdst, ?_⟩
  simp [VkImageResolve.withinSource, h1, hsrc, h3]

/-! ## C5 and C6: the layouts the images are left in -/

theorem lastLayout_append_transition (image : Nat) (calls : List Call)
    (oldLayout newLayout : VkImageLayout) (level levelCount layerCount : Nat)
    (aspect : VkImageAspectFlags) :
    lastLayout image (calls ++ [Call.transitionImageLayout image oldLayout newLayout level
      levelCount layerCount aspect]) = some newLayout := by
  simp [lastLayout, List.filterMap_append, Call.layoutFor]

theorem blitFast_returns (gtl : Nat → VkImageLayout) (ctx : VulkanContext)
    (aspect : VkImageAspectFlags) (filter : VkFilter) (ext : VkExtent2D)
    (src dst : VulkanAttachment) (sr dr : VkOffset3D × VkOffset3D)
    (hassert : resolveCase src dst = true → aspect ≠ VK_IMAGE_ASPECT_DEPTH_BIT) :
    ∃ copy, (copy.isBlit = true ∨ copy.isResolve = true) ∧
      blitFast gtl ctx aspect filter ext src dst sr dr =
        .ok (fastCalls gtl ctx aspect src dst copy) := by
  rw [blitFast_eq]
  by_cases h : resolveCase src dst = true
  · exact ⟨resolveCall aspect ext src dst sr dr, Or.inr rfl, by simp [h, hassert h]⟩
  · exact ⟨blitCall aspect filter src dst sr dr, Or.inl rfl, by simp [h]⟩

theorem blitFast_destination_swap_layout (gtl : Nat → VkImageLayout) (ctx : VulkanContext)
    (aspect : VkImageAspectFlags) (filter : VkFilter) (srcExtent : VkExtent2D)
    (src dst : VulkanAttachment) (srcRect dstRect : VkOffset3D × VkOffset3D)
    (hassert : (∃ st dt, src.texture = some st ∧ dst.texture = some dt ∧ st.samples > 1 ∧
      dt.samples = 1) → aspect ≠ VK_IMAGE_ASPECT_DEPTH_BIT) :
    ∃ calls, blitFast gtl ctx aspect filter srcExtent src dst srcRect dstRect = .ok calls ∧
      lastLayout dst.image calls =
        some (match dst.texture with
          | some dt => gtl dt.usage
          | none => ctx.swapAttachmentLayout) := by
  obtain ⟨copy, _, hcopy⟩ := blitFast_returns gtl ctx aspect filter srcExtent src dst srcRect
    dstRect (fun h => hassert ((resolveCase_iff _ _).1 h))
  refine ⟨_, hcopy, ?_⟩
  unfold fastCalls
  rw [lastLayout_append_transition]
  rfl

/-- C5: on a context whose swap context is as the specification gives it, every call
of `blitFast` that passes its assertion returns, and the target layout of the last
transition recorded for the destination image is `getTextureLayout(U)` when the
destination has an owning texture of usage `U`, and color-attachment-optimal when it
has none and the surface is not headless.  (What the code writes for a destination
without owning texture is the layout of the swap context's attachment.) -/
theorem blitFast_destination_layout (gtl : Nat → VkImageLayout) (ctx : VulkanContext)
    (aspect : VkImageAspectFlags) (filter : VkFilter) (srcExtent : VkExtent2D)
    (src dst : VulkanAttachment) (srcRect dstRect : VkOffset3D × VkOffset3D)
    (hassert : (∃ st dt, src.texture = some st ∧ dst.texture = some dt ∧ st.samples > 1 ∧
      dt.samples = 1) → aspect ≠ VK_IMAGE_ASPECT_DEPTH_BIT)
    (hswap : ctx.swapContextAsSpecified = true) :
    ∃ calls, blitFast gtl ctx aspect filter srcExtent src dst srcRect dstRect = .ok calls ∧
      (∀ dt, dst.texture = some dt → lastLayout dst.image calls = some (gtl dt.usage)) ∧
      (dst.texture = none → ctx.headlessQueue = false →
        lastLayout dst.image calls = some VkImageLayout.COLOR_ATTACHMENT_OPTIMAL) ∧
      (dst.texture = none → lastLayout dst.image calls = some ctx.swapAttachmentLayout) := by
  obtain ⟨calls, hcalls, hlast⟩ := blitFast_destination_swap_layout gtl ctx aspect filter
    srcExtent src dst srcRect dstRect hassert
  refine ⟨calls, hcalls, ?_, ?_, ?_⟩
  · intro dt hdt
    rw [hlast, hdt]
  · intro hnone hhead
    rw [hlast, hnone]
    simp only [VulkanContext.swapContextAsSpecified, hhead, Bool.false_or,
      decide_eq_true_eq] at hswap
    rw [hswap]
  · intro hnone
    rw [hlast, hnone]

/-- C5 at concrete inputs on a window surface: a destination texture of usage 2 is left
in the layout of that usage, and the default render target (no owning texture) is left
in color-attachment-optimal. -/
theorem blitFast_destination_layout_witness :
    (∃ calls, blitFast sampleTextureLayout sampleContext VK_IMAGE_ASPECT_DEPTH_BIT
        VkFilter.NEAREST ⟨64, 64⟩ (textureAttachment 6 1 2) (textureAttachment 8 1 2)
        (⟨0, 0, 0⟩, ⟨64, 64, 1⟩) (⟨0, 0, 0⟩, ⟨32, 32, 1⟩) = .ok calls ∧
      lastLayout (textureAttachment 8 1 2).image calls = some (sampleTextureLayout 2)) ∧
    (∃ calls, blitFast sampleTextureLayout sampleContext VK_IMAGE_ASPECT_COLOR_BIT
        VkFilter.LINEAR ⟨64, 64⟩ (textureAttachment 5 4 1) (defaultAttachment 7)
        (⟨0, 0, 0⟩, ⟨64, 64, 1⟩) (⟨0, 0, 0⟩, ⟨32, 32, 1⟩) = .ok calls ∧
      lastLayout (defaultAttachment 7).image calls =
        some VkImageLayout.COLOR_ATTACHMENT_OPTIMAL) := by
  constructor
  · obtain ⟨calls, hcalls, htex, _, _⟩ := blitFast_destination_layout sampleTextureLayout
      sampleContext VK_IMAGE_ASPECT_DEPTH_BIT VkFilter.NEAREST ⟨64, 64⟩
      (textureAttachment 6 1 2) (textureAttachment 8 1 2) (⟨0, 0, 0⟩, ⟨64, 64, 1⟩)
      (⟨0, 0, 0⟩, ⟨32, 32, 1⟩)
      (by
        rintro ⟨st, dt, hs, _, h1, _⟩
        simp only [textureAttachment, Option.some.injEq] at hs
        subst hs
        simp at h1)
      (by decide)
    exact ⟨calls, hcalls, htex ⟨1, 2⟩ rfl⟩
  · obtain ⟨calls, hcalls, _, hdefault, _⟩ := blitFast_destination_layout sampleTextureLayout
      sampleContext VK_IMAGE_ASPECT_COLOR_BIT VkFilter.LINEAR ⟨64, 64⟩
      (textureAttachment 5 4 1) (defaultAttachment 7) (⟨0, 0, 0⟩, ⟨64, 64, 1⟩)
      (⟨0, 0, 0⟩, ⟨32, 32, 1⟩) (fun _ => by decide) (by decide)
    exact ⟨calls, hcalls, hdefault rfl rfl⟩

/-- C6, as stated, fails: in a headless context a blit from the default render target
to itself (one image, no owning texture) records, after the copy, a transition of that
very image, and the last layout recorded for the source image is not
transfer-source-optimal. -/
theorem blitFast_source_restore_counterexample :
    (defaultAttachment 7).texture = none ∧
    headlessContext.headlessQueue = true ∧
    recorded (blitFast sampleTextureLayout headlessContext VK_IMAGE_ASPECT_COLOR_BIT
        VkFilter.LINEAR ⟨64, 64⟩ (defaultAttachment 7) (defaultAttachment 7)
        (⟨0, 0, 0⟩, ⟨64, 64, 1⟩) (⟨0, 0, 0⟩, ⟨32, 32, 1⟩)) =
      [Call.transitionImageLayout 7 .UNDEFINED .TRANSFER_SRC_OPTIMAL 0 1 1 1,
       Call.transitionImageLayout 7 .UNDEFINED .TRANSFER_DST_OPTIMAL 0 1 1 1,
       Call.vkCmdBlitImage 7 .TRANSFER_SRC_OPTIMAL 7 .TRANSFER_DST_OPTIMAL
         [{ srcSubresource := ⟨1, 0, 0, 1⟩
            srcOffsets := (⟨0, 0, 0⟩, ⟨64, 64, 1⟩)
            dstSubresource := ⟨1, 0, 0, 1⟩
            dstOffsets := (⟨0, 0, 0⟩, ⟨32, 32, 1⟩) }] VkFilter.LINEAR,
       Call.transitionImageLayout 7 .UNDEFINED .GENERAL 0 1 1 1] ∧
    lastLayout (defaultAttachment 7).image
      (recorded (blitFast sampleTextureLayout headlessContext VK_IMAGE_ASPECT_COLOR_BIT
        VkFilter.LINEAR ⟨64, 64⟩ (defaultAttachment 7) (defaultAttachment 7)
        (⟨0, 0, 0⟩, ⟨64, 64, 1⟩) (⟨0, 0, 0⟩, ⟨32, 32, 1⟩))) ≠
      some VkImageLayout.TRANSFER_SRC_OPTIMAL := by
  decide

/-- C6, amended: every call of `blitFast` that passes its assertion records the two
transfer transitions, one copy command, the source restore and last the destination
transition.  The source restore is one transition of the source image to
`getTextureLayout(usage)` when the source has an owning texture, one transition to
color-attachment-optimal when it has none and the surface is not headless, and nothing
when it has none and the surface is headless; in that last case, provided the source
and destination images are distinct, no transition of the source image follows the
copy and the last layout recorded for it is transfer-source-optimal. -/
theorem blitFast_source_restore (gtl : Nat → VkImageLayout) (ctx : VulkanContext)
    (aspect : VkImageAspectFlags) (filter : VkFilter) (srcExtent : VkExtent2D)
    (src dst : VulkanAttachment) (srcRect dstRect : VkOffset3D × VkOffset3D)
    (hassert : (∃ st dt, src.texture = some st ∧ dst.texture = some dt ∧ st.samples > 1 ∧
      dt.samples = 1) → aspect ≠ VK_IMAGE_ASPECT_DEPTH_BIT) :
    ∃ copy restore final,
      (copy.isBlit = true ∨ copy.isResolve = true) ∧
      final.isTransitionOf dst.image = true ∧
      blitFast gtl ctx aspect filter srcExtent src dst srcRect dstRect =
        .ok ([Call.transitionImageLayout src.image .UNDEFINED .TRANSFER_SRC_OPTIMAL
                src.level 1 1 aspect,
              Call.transitionImageLayout dst.image .UNDEFINED .TRANSFER_DST_OPTIMAL
                dst.level 1 1 aspect,
              copy] ++ restore ++ [final]) ∧
      (∀ st, src.texture = some st →
        restore = [Call.transitionImageLayout src.image .UNDEFINED (gtl st.usage)
          src.level 1 1 aspect]) ∧
      (src.texture = none → ctx.headlessQueue = false →
        restore = [Call.transitionImageLayout src.image .UNDEFINED
          .COLOR_ATTACHMENT_OPTIMAL src.level 1 1 aspect]) ∧
      (src.texture = none → ctx.headlessQueue = true →
        restore = [] ∧
        (src.image ≠ dst.image →
          (∀ c ∈ restore ++ [final], c.isTransitionOf src.image = false) ∧
          lastLayout src.image
            (recorded (blitFast gtl ctx aspect filter srcExtent src dst srcRect dstRect)) =
            some VkImageLayout.TRANSFER_SRC_OPTIMAL)) := by
  obtain ⟨copy, hkind, hcopy⟩ := blitFast_returns gtl ctx aspect filter srcExtent src dst
    srcRect dstRect (fun h => hassert ((resolveCase_iff _ _).1 h))
  refine ⟨copy, restoreSrcCalls gtl ctx aspect src,
    Call.transitionImageLayout dst.image .UNDEFINED (desiredLayout gtl ctx dst) dst.level 1 1
      aspect, hkind, by simp [Call.isTransitionOf], hcopy, ?_, ?_, ?_⟩
  · intro st hst
    simp [restoreSrcCalls, hst]
  · intro hnone hhead
    simp [restoreSrcCalls, hnone, hhead]
  · intro hnone hhead
    have hrestore : restoreSrcCalls gtl ctx aspect src = [] := by
      simp [restoreSrcCalls, hnone, hhead]
    refine ⟨hrestore, fun hne => ⟨?_, ?_⟩⟩
    · intro c hc
      rw [hrestore] at hc
      simp only [List.nil_append, List.mem_singleton] at hc
      subst hc
      simp only [Call.isTransitionOf, decide_eq_false_iff_not]
      exact fun h => hne h.symm
    · rw [hcopy]
      have hcopyLayout : Call.layoutFor src.image copy = none := by
        rcases hkind with hk | hk <;> cases copy <;>
          simp_all [Call.isBlit, Call.isResolve, Call.layoutFor]
      have hsrcLayout : ∀ (l : VkImageLayout) (lv : Nat),
          Call.layoutFor src.image
            (Call.transitionImageLayout src.image .UNDEFINED l lv 1 1 aspect) = some l := by
        intro l lv
        simp [Call.layoutFor]
      have hdstLayout : ∀ (l : VkImageLayout) (lv : Nat),
          Call.layoutFor src.image
            (Call.transitionImageLayout dst.image .UNDEFINED l lv 1 1 aspect) = none := by
        intro l lv
        simp [Call.layoutFor, Ne.symm hne]
      simp [recorded, fastCalls, hrestore, lastLayout, hcopyLayout, List.filterMap_cons,
        hsrcLayout, hdstLayout]

/-- C6, amended, at a concrete input: a headless blit from the default render target
(image 5) to a texture (image 7). -/
theorem blitFast_source_restore_witness :
    ∃ copy restore final,
      (copy.isBlit = true ∨ copy.isResolve = true) ∧
      final.isTransitionOf (textureAttachment 7 1 1).image = true ∧
      blitFast sampleTextureLayout headlessContext VK_IMAGE_ASPECT_COLOR_BIT
          VkFilter.LINEAR ⟨64, 64⟩ (defaultAttachment 5) (textureAttachment 7 1 1)
          (⟨0, 0, 0⟩, ⟨64, 64, 1⟩) (⟨0, 0, 0⟩, ⟨32, 32, 1⟩) =
        .ok ([Call.transitionImageLayout (defaultAttachment 5).image .UNDEFINED
                .TRANSFER_SRC_OPTIMAL (defaultAttachment 5).level 1 1
                VK_IMAGE_ASPECT_COLOR_BIT,
              Call.transitionImageLayout (textureAttachment 7 1 1).image .UNDEFINED
                .TRANSFER_DST_OPTIMAL (textureAttachment 7 1 1).level 1 1
                VK_IMAGE_ASPECT_COLOR_BIT,
              copy] ++ restore ++ [final]) ∧
      restore = [] ∧
      (∀ c ∈ restore ++ [final], c.isTransitionOf (defaultAttachment 5).image = false) ∧
      lastLayout (defaultAttachment 5).image
        (recorded (blitFast sampleTextureLayout headlessContext VK_IMAGE_ASPECT_COLOR_BIT
          VkFilter.LINEAR ⟨64, 64⟩ (defaultAttachment 5) (textureAttachment 7 1 1)
          (⟨0, 0, 0⟩, ⟨64, 64, 1⟩) (⟨0, 0, 0⟩, ⟨32, 32, 1⟩))) =
        some VkImageLayout.TRANSFER_SRC_OPTIMAL := by
  obtain ⟨copy, restore, final, hkind, hfinal, hrun, _, _, hheadless⟩ :=
    blitFast_source_restore sampleTextureLayout headlessContext VK_IMAGE_ASPECT_COLOR_BIT
      VkFilter.LINEAR ⟨64, 64⟩ (defaultAttachment 5) (textureAttachment 7 1 1)
      (⟨0, 0, 0⟩, ⟨64, 64, 1⟩) (⟨0, 0, 0⟩, ⟨32, 32, 1⟩)
      (fun _ => by decide)
  obtain ⟨hnil, hrest⟩ := hheadless rfl rfl
  obtain ⟨hnone, hlast⟩ := hrest (by decide)
  exact ⟨copy, restore, final, hkind, hfinal, hrun, hnil, hnone, hlast⟩

/-! ## C7 and C8: the lazily created shaders and quad -/

theorem lazyInit_initialised (env : Env) (b : VulkanBlitter) (h : b.mVertexShader ≠ 0) :
    lazyInit env b = .ok (b, []) := by
  simp [lazyInit, h]

theorem lazyInitTimes_initialised (env : Env) (n : Nat) (b : VulkanBlitter)
    (h : b.mVertexShader ≠ 0) : lazyInitTimes env n b = .ok (b, []) := by
  induction n with
  | zero => rfl
  | succ n ih => simp [lazyInitTimes, lazyInit_initialised env b h, ih]

theorem lazyInit_first (env : Env) (b : VulkanBlitter) (rp : VulkanRenderPrimitive)
    (hnull : b.mVertexShader = 0) (hdev : b.mContext.device ≠ 0)
    (hvs : env.vertexModule.1 = true) (hfs : env.fragmentModule.1 = true)
    (hrp : b.mRenderPrimitive = some rp) :
    lazyInit env b = .ok
      ({ b with
          mVertexShader := env.vertexModule.2
          mFragmentShader := env.fragmentModule.2
          mTriangleVertices := some
            { gpuBuffer := env.gpuBuffer
              usage := VK_BUFFER_USAGE_VERTEX_BUFFER_BIT
              numBytes := 32
              contents := kTriangleVertices }
          mRenderPrimitive := some
            { primitiveTopology := VK_PRIMITIVE_TOPOLOGY_TRIANGLE_STRIP
              buffers := rp.buffers ++ [env.gpuBuffer]
              offsets := rp.offsets ++ [0]
              varray :=
                { attributes := (List.replicate env.VERTEX_ATTRIBUTE_COUNT ⟨0, 0, 0, 0⟩).set 0
                    { location := 0, binding := 0, format := VK_FORMAT_R32G32_SFLOAT,
                      offset := 0 }
                  buffers := (List.replicate env.VERTEX_ATTRIBUTE_COUNT ⟨0, 0, 0⟩).set 0
                    { binding := 0, stride := 4 * 2, inputRate := 0 } } } },
        [Call.vkCreateShaderModule true env.vertexModule.2,
         Call.vkCreateShaderModule false env.fragmentModule.2,
         Call.newVulkanBuffer VK_BUFFER_USAGE_VERTEX_BUFFER_BIT 32,
         Call.loadFromCpu kTriangleVertices 0 32]) := by
  simp [lazyInit, hnull, hdev, hvs, hfs, hrp]

/-- C7: on a freshly constructed blitter with a valid device, and when both shader
modules are created successfully (the vertex module handle is not null), calling
`lazyInit` N ≥ 1 times returns, makes exactly one vertex shader module creation, one
fragment shader module creation and one vertex buffer creation, and ends in the state
a single call ends in, whose render primitive holds exactly one buffer and one
offset. -/
theorem lazyInit_idempotent (env : Env) (ctx : VulkanContext) (N : Nat)
    (hN : N ≥ 1) (hdev : ctx.device ≠ 0)
    (hvs : env.vertexModule.1 = true) (hvsHandle : env.vertexModule.2 ≠ 0)
    (hfs : env.fragmentModule.1 = true) :
    ∃ b1 calls,
      lazyInit env (VulkanBlitter.new ctx) = .ok (b1, calls) ∧
      lazyInitTimes env N (VulkanBlitter.new ctx) = .ok (b1, calls) ∧
      calls.countP (Call.isCreateShader true) = 1 ∧
      calls.countP (Call.isCreateShader false) = 1 ∧
      calls.countP Call.isNewBuffer = 1 ∧
      ∃ rp, b1.mRenderPrimitive = some rp ∧ rp.buffers.length = 1 ∧ rp.offsets.length = 1 ∧
        rp.buffers = [env.gpuBuffer] ∧ rp.offsets = [0] := by
  have hfirst := lazyInit_first env (VulkanBlitter.new ctx)
    { primitiveTopology := 0, buffers := [], offsets := [], varray := ⟨[], []⟩ }
    rfl hdev hvs hfs rfl
  refine ⟨_, _, hfirst, ?_, rfl, rfl, rfl, _, rfl, rfl, rfl, rfl, rfl⟩
  obtain ⟨n, rfl⟩ : ∃ n, N = n + 1 := ⟨N - 1, by omega⟩
  simp only [lazyInitTimes, hfirst]
  rw [lazyInitTimes_initialised env n _ hvsHandle]
  simp

/-- C7 at a concrete input: three calls on a fresh blitter. -/
theorem lazyInit_idempotent_witness :
    ∃ b1 calls,
      lazyInit sampleEnv (VulkanBlitter.new sampleContext) = .ok (b1, calls) ∧
      lazyInitTimes sampleEnv 3 (VulkanBlitter.new sampleContext) = .ok (b1, calls) ∧
      calls.countP (Call.isCreateShader true) = 1 ∧
      calls.countP (Call.isCreateShader false) = 1 ∧
      calls.countP Call.isNewBuffer = 1 ∧
      ∃ rp, b1.mRenderPrimitive = some rp ∧ rp.buffers.length = 1 ∧ rp.offsets.length = 1 ∧
        rp.buffers = [sampleEnv.gpuBuffer] ∧ rp.offsets = [0] :=
  lazyInit_idempotent sampleEnv sampleContext 3 (by decide) (by decide) rfl (by decide) rfl

/-- C8 fails on the code: after `lazyInit` and `shutdown` on a fresh blitter with a
valid device the render primitive pointer is null (only the constructor allocates
it), and the next `lazyInit`, having found no vertex shader, stops on dereferencing
it instead of returning a state with the resources recreated. -/
theorem lazyInit_after_shutdown_faults :
    (∃ b, afterInitAndShutdown sampleEnv sampleContext = some b ∧
      b.mVertexShader = 0 ∧ b.mRenderPrimitive = none ∧ b.mContext.device ≠ 0 ∧
      lazyInit sampleEnv b = .error Fault.nullRenderPrimitive) ∧
    ∃ b1 calls, lazyInit sampleEnv (VulkanBlitter.new sampleContext) = .ok (b1, calls) := by
  refine ⟨⟨_, rfl, by decide, by decide, by decide, rfl⟩, _, _, rfl⟩

/-! ## C9: the slow path of `blitDepth` -/

theorem lazyInit_calls_kind (env : Env) (b b1 : VulkanBlitter) (calls : List Call)
    (h : lazyInit env b = .ok (b1, calls)) :
    calls.countP Call.isResolve = 0 ∧ calls.countP Call.isBlit = 0 ∧
    calls.countP Call.isDraw = 0 ∧
    (∀ tail current, rasterStateAtDraw (calls ++ tail) current =
      rasterStateAtDraw tail current) ∧
    (b.mRenderPrimitive ≠ none → b1.mRenderPrimitive ≠ none) := by
  unfold lazyInit at h
  split_ifs at h
  · cases h
    exact ⟨rfl, rfl, rfl, fun _ _ => rfl, id⟩
  · split at h
    · cases h
    · cases h
      exact ⟨rfl, rfl, rfl, fun _ _ => rfl, fun _ => by simp⟩

theorem lazyInit_returns (env : Env) (b : VulkanBlitter)
    (hrp : b.mRenderPrimitive ≠ none)
    (hinit : b.mVertexShader ≠ 0 ∨
      (b.mContext.device ≠ 0 ∧ env.vertexModule.1 = true ∧ env.fragmentModule.1 = true)) :
    ∃ b1 calls, lazyInit env b = .ok (b1, calls) := by
  by_cases hvs : b.mVertexShader = 0
  · rcases hinit with h | ⟨hdev, hv, hf⟩
    · exact absurd hvs h
    · cases hp : b.mRenderPrimitive with
      | none => exact absurd hp hrp
      | some rp => exact ⟨_, _, lazyInit_first env b rp hvs hdev hv hf hp⟩
  · exact ⟨_, _, lazyInit_initialised env b hvs⟩

/-- C9, as stated, fails: a blitDepth from a four-sample depth attachment to the depth
attachment of the default render target (one sample, no owning texture) records one
blit command and no draw call. -/
theorem blitDepth_slow_path_counterexample :
    msaaToDefaultArgs.srcTarget.getDepth.samples = 4 ∧
    msaaToDefaultArgs.dstTarget.getDepth.samples = 1 ∧
    (callsOf (blitDepth sampleEnv (VulkanBlitter.new sampleContext) msaaToDefaultArgs)).countP
      Call.isBlit = 1 ∧
    (callsOf (blitDepth sampleEnv (VulkanBlitter.new sampleContext) msaaToDefaultArgs)).countP
      Call.isDraw = 0 := by
  decide

/-- C9, amended: for a blitDepth call whose depth attachments both have an owning
texture, the source texture with more than one sample and the destination texture
with one, on a blitter that still has its render primitive and either is initialised
or can be (valid device, both shader modules created), the call returns and records
no resolve command, no blit command and exactly one draw call, and the raster state
bound before that draw has depth test disabled, depth write enabled, depth compare op
ALWAYS and zero colour targets. -/
theorem blitDepth_slow_path_draws (env : Env) (b : VulkanBlitter) (args : BlitArgs)
    (st dt : VulkanTexture)
    (hs : args.srcTarget.getDepth.texture = some st)
    (hd : args.dstTarget.getDepth.texture = some dt)
    (h1 : st.samples > 1) (h2 : dt.samples = 1)
    (hrp : b.mRenderPrimitive ≠ none)
    (hinit : b.mVertexShader ≠ 0 ∨
      (b.mContext.device ≠ 0 ∧ env.vertexModule.1 = true ∧ env.fragmentModule.1 = true)) :
    ∃ b2 calls rs, blitDepth env b args = .ok (b2, calls) ∧
      calls.countP Call.isResolve = 0 ∧
      calls.countP Call.isBlit = 0 ∧
      calls.countP Call.isDraw = 1 ∧
      rasterStateAtDraw calls none = some rs ∧
      rs.depthStencil.depthTestEnable = false ∧
      rs.depthStencil.depthWriteEnable = true ∧
      rs.depthStencil.depthCompareOp = VkCompareOp.ALWAYS ∧
      rs.colorTargetCount = 0 := by
  obtain ⟨b1, initCalls, hinitOk⟩ := lazyInit_returns env b hrp hinit
  obtain ⟨hres, hblit, hdraw, hraster, hkeep⟩ := lazyInit_calls_kind env b b1 initCalls hinitOk
  have hroute := ((blitDepth_condition_cases env b args).1
    ⟨st, dt, hs, hd, h1, h2⟩)
  cases hp : b1.mRenderPrimitive with
  | none => exact absurd hp (hkeep hrp)
  | some rp =>
    rw [hroute]
    unfold blitSlowDepth
    simp only [hinitOk, hp]
    cases hnd : env.newDescriptors <;> cases hnp : env.newPipeline <;>
      simp only [Bool.false_eq_true, if_false, if_true, List.append_nil,
        List.append_assoc] <;>
      exact ⟨_, _, _, rfl, by simp only [List.countP_append, hres]; rfl,
        by simp only [List.countP_append, hblit]; rfl,
        by simp only [List.countP_append, hdraw]; rfl,
        by rw [hraster]; rfl, rfl, rfl, rfl, rfl⟩

/-- C9, amended, at the scenario of the specification: source samples 4, destination
samples 1, both attachments of textures, on a fresh blitter. -/
theorem blitDepth_slow_path_draws_witness :
    ∃ b2 calls rs,
      blitDepth sampleEnv (VulkanBlitter.new sampleContext) msaaToTextureArgs =
        .ok (b2, calls) ∧
      calls.countP Call.isResolve = 0 ∧
      calls.countP Call.isBlit = 0 ∧
      calls.countP Call.isDraw = 1 ∧
      rasterStateAtDraw calls none = some rs ∧
      rs.depthStencil.depthTestEnable = false ∧
      rs.depthStencil.depthWriteEnable = true ∧
      rs.depthStencil.depthCompareOp = VkCompareOp.ALWAYS ∧
      rs.colorTargetCount = 0 :=
  blitDepth_slow_path_draws sampleEnv (VulkanBlitter.new sampleContext) msaaToTextureArgs
    ⟨4, 2⟩ ⟨1, 2⟩ rfl rfl (by decide) rfl (by decide) (Or.inr ⟨by decide, rfl, rfl⟩)

/-! ## C12: the order of what `blitFast` records -/

theorem restoreSrcCalls_shape (gtl : Nat → VkImageLayout) (ctx : VulkanContext)
    (aspect : VkImageAspectFlags) (src : VulkanAttachment) :
    (restoreSrcCalls gtl ctx aspect src = [] ∨
      ∃ layout, restoreSrcCalls gtl ctx aspect src =
        [Call.transitionImageLayout src.image .UNDEFINED layout src.level 1 1 aspect]) ∧
    (restoreSrcCalls gtl ctx aspect src = [] ↔
      (src.texture = none ∧ ctx.headlessQueue = true)) := by
  unfold restoreSrcCalls
  cases hs : src.texture with
  | some st => simp
  | none => cases hh : ctx.headlessQueue <;> simp

theorem copy_kind_shape (c : Call) (h : c.isBlit = true ∨ c.isResolve = true) :
    c.isCopy = true ∧ c.oneLevelOneLayer = true := by
  cases c <;> simp_all [Call.isBlit, Call.isResolve, Call.isCopy, Call.oneLevelOneLayer]

/-- C12: every call of `blitFast` that passes its assertion returns, and what it
records is, in this order: the transition of the source image to
transfer-source-optimal, the transition of the destination image to
transfer-destination-optimal, one copy command (a blit or a resolve, the only one
recorded), the source restore (one transition of the source image, absent exactly
when the source has no owning texture and the surface is headless) and last a
transition of the destination image; every transition is at the attachment's own
level and covers one level and one layer. -/
theorem blitFast_records_in_order (gtl : Nat → VkImageLayout) (ctx : VulkanContext)
    (aspect : VkImageAspectFlags) (filter : VkFilter) (srcExtent : VkExtent2D)
    (src dst : VulkanAttachment) (srcRect dstRect : VkOffset3D × VkOffset3D)
    (hassert : (∃ st dt, src.texture = some st ∧ dst.texture = some dt ∧ st.samples > 1 ∧
      dt.samples = 1) → aspect ≠ VK_IMAGE_ASPECT_DEPTH_BIT) :
    ∃ calls copy restore desired,
      blitFast gtl ctx aspect filter srcExtent src dst srcRect dstRect = .ok calls ∧
      calls =
        [Call.transitionImageLayout src.image .UNDEFINED .TRANSFER_SRC_OPTIMAL
            src.level 1 1 aspect,
         Call.transitionImageLayout dst.image .UNDEFINED .TRANSFER_DST_OPTIMAL
            dst.level 1 1 aspect,
         copy] ++ restore ++
        [Call.transitionImageLayout dst.image .UNDEFINED desired dst.level 1 1 aspect] ∧
      copy.isCopy = true ∧
      (restore = [] ∨
        ∃ layout, restore =
          [Call.transitionImageLayout src.image .UNDEFINED layout src.level 1 1 aspect]) ∧
      (restore = [] ↔ (src.texture = none ∧ ctx.headlessQueue = true)) ∧
      calls.countP Call.isCopy = 1 ∧
      (∀ c ∈ calls, c.oneLevelOneLayer = true) ∧
      (∀ c ∈ calls.take 2, c.isCopy = false) := by
  obtain ⟨copy, hkind, hcopy⟩ := blitFast_returns gtl ctx aspect filter srcExtent src dst
    srcRect dstRect (fun h => hassert ((resolveCase_iff _ _).1 h))
  obtain ⟨hshape, hiff⟩ := restoreSrcCalls_shape gtl ctx aspect src
  obtain ⟨hcopyKind, hcopyShape⟩ := copy_kind_shape copy hkind
  refine ⟨_, copy, restoreSrcCalls gtl ctx aspect src, desiredLayout gtl ctx dst, hcopy, rfl,
    hcopyKind, hshape, hiff, ?_, ?_, ?_⟩
  · rw [fastCalls_countP gtl ctx aspect src dst copy Call.isCopy
      (fun c hc => by simp [Call.isCopy, isBlit_of_isTransition c hc,
        isResolve_of_isTransition c hc])]
    simp [hcopyKind]
  · intro c hc
    simp only [fastCalls, List.mem_append, List.mem_cons, List.mem_singleton,
      List.not_mem_nil, or_false] at hc
    rcases hc with ((hc | hc | hc) | hc) | hc
    · subst hc; rfl
    · subst hc; rfl
    · subst hc; exact hcopyShape
    · rcases hshape with hnil | ⟨layout, hone⟩
      · rw [hnil] at hc; simp at hc
      · rw [hone] at hc
        simp only [List.mem_singleton] at hc
        subst hc; rfl
    · subst hc; rfl
  · intro c hc
    simp only [fastCalls, List.cons_append, List.take_succ_cons, List.take_zero,
      List.mem_cons, List.not_mem_nil, or_false] at hc
    rcases hc with hc | hc <;> subst hc <;> rfl

/-- C12 at a concrete input: a blit between two one-sample textures records two
transfer transitions, the blit, the source restore and the destination transition. -/
theorem blitFast_records_in_order_witness :
    ∃ calls copy restore desired,
      blitFast sampleTextureLayout sampleContext VK_IMAGE_ASPECT_COLOR_BIT VkFilter.LINEAR
        ⟨64, 64⟩ (textureAttachment 5 1 1) (textureAttachment 7 1 1)
        (⟨0, 0, 0⟩, ⟨64, 64, 1⟩) (⟨0, 0, 0⟩, ⟨32, 32, 1⟩) = .ok calls ∧
      calls =
        [Call.transitionImageLayout (textureAttachment 5 1 1).image .UNDEFINED
            .TRANSFER_SRC_OPTIMAL (textureAttachment 5 1 1).level 1 1
            VK_IMAGE_ASPECT_COLOR_BIT,
         Call.transitionImageLayout (textureAttachment 7 1 1).image .UNDEFINED
            .TRANSFER_DST_OPTIMAL (textureAttachment 7 1 1).level 1 1
            VK_IMAGE_ASPECT_COLOR_BIT,
         copy] ++ restore ++
        [Call.transitionImageLayout (textureAttachment 7 1 1).image .UNDEFINED desired
          (textureAttachment 7 1 1).level 1 1 VK_IMAGE_ASPECT_COLOR_BIT] ∧
      copy.isCopy = true ∧
      (restore = [] ∨
        ∃ layout, restore =
          [Call.transitionImageLayout (textureAttachment 5 1 1).image .UNDEFINED layout
            (textureAttachment 5 1 1).level 1 1 VK_IMAGE_ASPECT_COLOR_BIT]) ∧
      (restore = [] ↔
        ((textureAttachment 5 1 1).texture = none ∧ sampleContext.headlessQueue = true)) ∧
      calls.countP Call.isCopy = 1 ∧
      (∀ c ∈ calls, c.oneLevelOneLayer = true) ∧
      (∀ c ∈ calls.take 2, c.isCopy = false) :=
  blitFast_records_in_order sampleTextureLayout sampleContext VK_IMAGE_ASPECT_COLOR_BIT
    VkFilter.LINEAR ⟨64, 64⟩ (textureAttachment 5 1 1) (textureAttachment 7 1 1)
    (⟨0, 0, 0⟩, ⟨64, 64, 1⟩) (⟨0, 0, 0⟩, ⟨32, 32, 1⟩) (fun _ => by decide)

/-! ## C13: the sampler descriptors of the slow path -/

theorem lazyInit_calls_no_samplers (env : Env) (b b1 : VulkanBlitter) (calls : List Call)
    (h : lazyInit env b = .ok (b1, calls)) : ∀ c ∈ calls, c.samplers = none := by
  unfold lazyInit at h
  split_ifs at h
  · cases h; simp
  · split at h
    · cases h
    · cases h
      intro c hc
      simp at hc
      rcases hc with rfl | rfl | rfl | rfl <;> rfl

theorem blitSlowDepth_samplers_null (env : Env) (b : VulkanBlitter)
    (aspect : VkImageAspectFlags) (filter : VkFilter) (ext : VkExtent2D)
    (src dst : VulkanAttachment) (sr dr : VkOffset3D × VkOffset3D) :
    ∀ c ∈ callsOf (blitSlowDepth env b aspect filter ext src dst sr dr),
      ∀ samplers, c.samplers = some samplers →
        ∀ d ∈ samplers, d.imageView = 0 ∧ d.sampler = 0 := by
  unfold blitSlowDepth
  cases hinit : lazyInit env b with
  | error e => simp [callsOf]
  | ok r =>
    obtain ⟨b1, initCalls⟩ := r
    have hi := lazyInit_calls_no_samplers env b b1 initCalls hinit
    cases hrp : b1.mRenderPrimitive with
    | none => simp [callsOf, hrp]
    | some rp =>
      simp only [hrp, callsOf]
      intro c hc samplers hs d hd
      simp only [List.mem_append, List.mem_cons, List.mem_singleton, List.not_mem_nil,
        or_false] at hc
      rcases hc with (((((hc | hc) | hc) | hc) | hc) | hc)
      · rw [hi c hc] at hs; cases hs
      · rcases hc with rfl | rfl | rfl | rfl | rfl | rfl | rfl | rfl <;>
          simp only [Call.samplers, Option.some.injEq] at hs <;> try cases hs
        rw [List.mem_replicate] at hd
        rw [hd.2]
        exact ⟨rfl, rfl⟩
      · split_ifs at hc
        · simp at hc; subst hc; cases hs
        · simp at hc
      · subst hc; cases hs
      · split_ifs at hc
        · simp at hc; subst hc; cases hs
        · simp at hc
      · rcases hc with rfl | rfl <;> cases hs

/-- C13 fails on the code: in a blitDepth from a four-sample depth texture (image 6)
to a one-sample depth texture the slow path makes one `bindSamplers` call, with 16
zero-initialised descriptors (null sampler, null image view); in every call of
`blitSlowDepth` every descriptor passed to `bindSamplers` has a null image view and a
null sampler, and what `blitSlowDepth` does is the same for every source
attachment. -/
theorem blitSlowDepth_binds_no_source :
    (callsOf (blitDepth sampleEnv (VulkanBlitter.new sampleContext)
        msaaToTextureArgs)).filterMap Call.samplers =
      [List.replicate 16 ⟨0, 0, VkImageLayout.UNDEFINED⟩] ∧
    msaaToTextureArgs.srcTarget.getDepth.image = 6 ∧
    (∀ (env : Env) (b : VulkanBlitter) (aspect : VkImageAspectFlags) (filter : VkFilter)
        (ext : VkExtent2D) (src dst : VulkanAttachment) (sr dr : VkOffset3D × VkOffset3D),
      ∀ c ∈ callsOf (blitSlowDepth env b aspect filter ext src dst sr dr),
        ∀ samplers, c.samplers = some samplers →
          ∀ d ∈ samplers, d.imageView = 0 ∧ d.sampler = 0) ∧
    (∀ (env : Env) (b : VulkanBlitter) (aspect : VkImageAspectFlags) (filter : VkFilter)
        (ext : VkExtent2D) (src src2 dst : VulkanAttachment)
        (sr dr : VkOffset3D × VkOffset3D),
      blitSlowDepth env b aspect filter ext src dst sr dr =
        blitSlowDepth env b aspect filter ext src2 dst sr dr) :=
  ⟨by decide, rfl, blitSlowDepth_samplers_null, fun _ _ _ _ _ _ _ _ _ _ => rfl⟩

/-! ## C14: no resolve with the depth aspect from the entry points -/

theorem lazyInit_error_kind (env : Env) (b : VulkanBlitter) :
    lazyInit env b ≠ .error Fault.resolveWithDepth := by
  unfold lazyInit
  split_ifs
  · simp
  · simp
  · simp
  · simp
  · split <;> simp

theorem blitSlowDepth_error_kind (env : Env) (b : VulkanBlitter)
    (aspect : VkImageAspectFlags) (filter : VkFilter) (ext : VkExtent2D)
    (src dst : VulkanAttachment) (sr dr : VkOffset3D × VkOffset3D) :
    blitSlowDepth env b aspect filter ext src dst sr dr ≠ .error Fault.resolveWithDepth := by
  unfold blitSlowDepth
  cases hinit : lazyInit env b with
  | error e =>
    have := lazyInit_error_kind env b
    rw [hinit] at this
    simpa using this
  | ok r =>
    obtain ⟨b1, initCalls⟩ := r
    cases hrp : b1.mRenderPrimitive with
    | none => simp [hrp]
    | some rp => simp [hrp]

/-- C14: through the public entry points the assertion of the resolve branch never
fails.  `blitColor` calls `blitFast` with the colour aspect and returns.  `blitDepth`
tests the very condition of the resolve branch: when it holds it is `blitSlowDepth`
and `blitFast` is not reached; when it does not, `blitFast` returns and records no
resolve.  Either way `blitDepth` never stops on the assertion and never records a
resolve.  (`blitFast` with the depth aspect stops on the assertion exactly under that
condition.) -/
theorem resolve_never_with_depth (env : Env) (b : VulkanBlitter) (ctx : VulkanContext)
    (args : BlitArgs) :
    (∃ calls, blitColor env.getTextureLayout ctx args = .ok calls ∧
      ∀ c ∈ calls, ∀ regions, c = Call.vkCmdResolveImage
          (args.srcTarget.getColor args.targetIndex).image .TRANSFER_SRC_OPTIMAL
          (args.dstTarget.getColor 0).image .TRANSFER_DST_OPTIMAL regions →
        ∀ r ∈ regions, r.srcSubresource.aspectMask ≠ VK_IMAGE_ASPECT_DEPTH_BIT) ∧
    blitDepth env b args ≠ .error Fault.resolveWithDepth ∧
    (callsOf (blitDepth env b args)).countP Call.isResolve = 0 ∧
    (blitFast env.getTextureLayout b.mContext VK_IMAGE_ASPECT_DEPTH_BIT args.filter
        args.srcTarget.getExtent args.srcTarget.getDepth args.dstTarget.getDepth
        args.srcRectPair args.dstRectPair = .error Fault.resolveWithDepth ↔
      resolveCase args.srcTarget.getDepth args.dstTarget.getDepth = true) ∧
    ((resolveCase args.srcTarget.getDepth args.dstTarget.getDepth = true ∧
        blitDepth env b args =
          blitSlowDepth env b VK_IMAGE_ASPECT_DEPTH_BIT args.filter args.srcTarget.getExtent
            args.srcTarget.getDepth args.dstTarget.getDepth args.srcRectPair
            args.dstRectPair) ∨
      (resolveCase args.srcTarget.getDepth args.dstTarget.getDepth = false ∧
        ∃ calls,
          blitFast env.getTextureLayout b.mContext VK_IMAGE_ASPECT_DEPTH_BIT args.filter
            args.srcTarget.getExtent args.srcTarget.getDepth args.dstTarget.getDepth
            args.srcRectPair args.dstRectPair = .ok calls ∧
          blitDepth env b args = .ok (b, calls))) := by
  have hcolor : ∃ copy, (copy.isBlit = true ∨ copy.isResolve = true) ∧
      blitColor env.getTextureLayout ctx args = .ok (fastCalls env.getTextureLayout ctx
        VK_IMAGE_ASPECT_COLOR_BIT (args.srcTarget.getColor args.targetIndex)
        (args.dstTarget.getColor 0) copy) ∧
      ∀ regions, copy = Call.vkCmdResolveImage
          (args.srcTarget.getColor args.targetIndex).image .TRANSFER_SRC_OPTIMAL
          (args.dstTarget.getColor 0).image .TRANSFER_DST_OPTIMAL regions →
        ∀ r ∈ regions, r.srcSubresource.aspectMask ≠ VK_IMAGE_ASPECT_DEPTH_BIT := by
    unfold blitColor
    simp only
    rw [blitFast_eq]
    by_cases h : resolveCase (args.srcTarget.getColor args.targetIndex)
        (args.dstTarget.getColor 0) = true
    · refine ⟨resolveCall VK_IMAGE_ASPECT_COLOR_BIT args.srcTarget.getExtent
        (args.srcTarget.getColor args.targetIndex) (args.dstTarget.getColor 0)
        args.srcRectPair args.dstRectPair, Or.inr rfl,
        by simp [h, VK_IMAGE_ASPECT_COLOR_BIT, VK_IMAGE_ASPECT_DEPTH_BIT], ?_⟩
      intro regions hreg r hr
      simp only [resolveCall, Call.vkCmdResolveImage.injEq, true_and] at hreg
      subst hreg
      simp only [List.mem_singleton] at hr
      subst hr
      show VK_IMAGE_ASPECT_COLOR_BIT ≠ VK_IMAGE_ASPECT_DEPTH_BIT
      decide
    · refine ⟨blitCall VK_IMAGE_ASPECT_COLOR_BIT args.filter
        (args.srcTarget.getColor args.targetIndex) (args.dstTarget.getColor 0)
        args.srcRectPair args.dstRectPair, Or.inl rfl, by simp [h], ?_⟩
      intro regions hreg
      simp [blitCall] at hreg
  have hassert : blitFast env.getTextureLayout b.mContext VK_IMAGE_ASPECT_DEPTH_BIT
      args.filter args.srcTarget.getExtent args.srcTarget.getDepth args.dstTarget.getDepth
      args.srcRectPair args.dstRectPair = .error Fault.resolveWithDepth ↔
      resolveCase args.srcTarget.getDepth args.dstTarget.getDepth = true := by
    rw [blitFast_eq]
    by_cases h : resolveCase args.srcTarget.getDepth args.dstTarget.getDepth = true
    · simp [h]
    · simp [h]
  by_cases hcase : resolveCase args.srcTarget.getDepth args.dstTarget.getDepth = true
  · have hroute := (blitDepth_condition_cases env b args).1 ((resolveCase_iff _ _).1 hcase)
    refine ⟨?_, ?_, ?_, hassert, Or.inl ⟨hcase, hroute⟩⟩
    · obtain ⟨copy, _, hok, hres⟩ := hcolor
      refine ⟨_, hok, ?_⟩
      intro c hc regions hreg
      subst hreg
      have hnt : ∀ c' ∈ restoreSrcCalls env.getTextureLayout ctx VK_IMAGE_ASPECT_COLOR_BIT
          (args.srcTarget.getColor args.targetIndex), c'.isResolve = false := by
        intro c' hc'
        have := restoreSrcCalls_transitions _ _ _ _ c' hc'
        cases c' <;> simp_all [Call.isTransitionOf, Call.isResolve]
      simp only [fastCalls, List.mem_append, List.mem_cons, List.mem_singleton,
        List.not_mem_nil, or_false] at hc
      rcases hc with ((hc | hc | hc) | hc) | hc
      · cases hc
      · cases hc
      · exact hres regions hc.symm
      · have := hnt _ hc
        simp [Call.isResolve] at this
      · cases hc
    · rw [hroute]
      exact blitSlowDepth_error_kind _ _ _ _ _ _ _ _ _
    · rw [hroute, List.countP_eq_zero]
      intro c hc
      have := blitSlowDepth_calls_not_fast _ _ _ _ _ _ _ _ _ c hc
      simp only [Call.ofFastPath, Bool.or_eq_false_iff] at this
      simp [this.2]
  · have hfalse : resolveCase args.srcTarget.getDepth args.dstTarget.getDepth = false := by
      simpa using hcase
    have hcond := (blitDepth_condition_cases env b args).2
      (fun hex => hcase ((resolveCase_iff _ _).2 hex))
    have hfast : blitFast env.getTextureLayout b.mContext VK_IMAGE_ASPECT_DEPTH_BIT
        args.filter args.srcTarget.getExtent args.srcTarget.getDepth args.dstTarget.getDepth
        args.srcRectPair args.dstRectPair =
        .ok (fastCalls env.getTextureLayout b.mContext VK_IMAGE_ASPECT_DEPTH_BIT
          args.srcTarget.getDepth args.dstTarget.getDepth
          (blitCall VK_IMAGE_ASPECT_DEPTH_BIT args.filter args.srcTarget.getDepth
            args.dstTarget.getDepth args.srcRectPair args.dstRectPair)) := by
      rw [blitFast_eq, hfalse]
      rfl
    have hdepth : blitDepth env b args =
        .ok (b, fastCalls env.getTextureLayout b.mContext VK_IMAGE_ASPECT_DEPTH_BIT
          args.srcTarget.getDepth args.dstTarget.getDepth
          (blitCall VK_IMAGE_ASPECT_DEPTH_BIT args.filter args.srcTarget.getDepth
            args.dstTarget.getDepth args.srcRectPair args.dstRectPair)) := by
      unfold blitDepth
      simp only [hcond, hfast]
      rfl
    refine ⟨?_, ?_, ?_, hassert, Or.inr ⟨hfalse, _, hfast, hdepth⟩⟩
    · obtain ⟨copy, _, hok, hres⟩ := hcolor
      refine ⟨_, hok, ?_⟩
      intro c hc regions hreg
      subst hreg
      have hnt : ∀ c' ∈ restoreSrcCalls env.getTextureLayout ctx VK_IMAGE_ASPECT_COLOR_BIT
          (args.srcTarget.getColor args.targetIndex), c'.isResolve = false := by
        intro c' hc'
        have := restoreSrcCalls_transitions _ _ _ _ c' hc'
        cases c' <;> simp_all [Call.isTransitionOf, Call.isResolve]
      simp only [fastCalls, List.mem_append, List.mem_cons, List.mem_singleton,
        List.not_mem_nil, or_false] at hc
      rcases hc with ((hc | hc | hc) | hc) | hc
      · cases hc
      · cases hc
      · exact hres regions hc.symm
      · have := hnt _ hc
        simp [Call.isResolve] at this
      · cases hc
    · rw [hdepth]; simp
    · rw [hdepth]
      simp only [callsOf]
      rw [fastCalls_countP _ _ _ _ _ _ _ isResolve_of_isTransition]
      rfl

end Filament

namespace Gltfio

/-! ## C10: the primary indices on tied weights -/

theorem sortDescending_nthElement4_example :
    NthElement4 [1, 1, 1, 1, 2] (sortDescending [1, 1, 1, 1, 2]) := by
  refine ⟨?_, by decide⟩
  have h : sortDescending [1, 1, 1, 1, 2] = [2, 1, 1, 1, 1] := by decide
  rw [h]
  exact (@List.perm_append_comm Int [1, 1, 1, 1] [2]).symm

theorem perm_example_first_four (s : List Int) (h : s.Perm [1, 1, 1, 1, 2]) :
    ∃ a b c d e, s = [a, b, c, d, e] ∧ (1 = a ∨ 1 = b ∨ 1 = c ∨ 1 = d) := by
  have hlen : s.length = 5 := by simpa using h.length_eq
  have hcount : s.count 2 = 1 := by rw [h.count_eq]; decide
  have hmem : ∀ v ∈ s, v = 1 ∨ v = 2 := by
    intro v hv
    have := h.mem_iff.1 hv
    simp at this
    tauto
  match s, hlen with
  | [a, b, c, d, e], _ =>
    refine ⟨a, b, c, d, e, rfl, ?_⟩
    by_contra hno
    push_neg at hno
    have ha : a = 2 := by rcases hmem a (by simp) with h | h; exact absurd h.symm hno.1; exact h
    have hb : b = 2 := by
      rcases hmem b (by simp) with h | h; exact absurd h.symm hno.2.1; exact h
    subst ha hb
    simp [List.count_cons] at hcount

/-- C10 fails on the code: for the weights [1, 1, 1, 1, 2] (five positive weights),
whatever rearrangement `nth_element` produces, the primary indices are 0, 1, 2, 3,
all of weight 1, and index 4, whose weight 2 is the highest, is left out. -/
theorem primaryIndices_ties_miss_highest :
    (∀ sorted, NthElement4 [1, 1, 1, 1, 2] sorted →
      selectPrimaryIndices [1, 1, 1, 1, 2] sorted = [0, 1, 2, 3]) ∧
    primaryIndices [1, 1, 1, 1, 2] = [0, 1, 2, 3] ∧
    4 ∉ primaryIndices [1, 1, 1, 1, 2] ∧
    ([1, 1, 1, 1, 2] : List Int).getD 4 0 > ([1, 1, 1, 1, 2] : List Int).getD 0 0 := by
  refine ⟨?_, by decide, by decide, by decide⟩
  intro sorted hsorted
  obtain ⟨a, b, c, d, e, rfl, hfirst⟩ := perm_example_first_four sorted hsorted.1
  simp [selectPrimaryIndices, primaryLoop, hfirst]

/-- C10's failing input with the descending sort as the outcome of `nth_element`. -/
theorem primaryIndices_ties_miss_highest_witness :
    NthElement4 [1, 1, 1, 1, 2] (sortDescending [1, 1, 1, 1, 2]) ∧
    selectPrimaryIndices [1, 1, 1, 1, 2] (sortDescending [1, 1, 1, 1, 2]) = [0, 1, 2, 3] :=
  ⟨sortDescending_nthElement4_example,
   primaryIndices_ties_miss_highest.1 _ sortDescending_nthElement4_example⟩

/-! ## C11: the morph table as a cache -/

theorem MorphKeyEqualFn_iff (k1 k2 : MorphKey) : MorphKeyEqualFn k1 k2 = true ↔ k1 = k2 := by
  cases k1
  cases k2
  simp [MorphKeyEqualFn]

theorem geometryCalls_no_create (env : MorphEnv) (renderable : Nat) (value : MorphValue) :
    ∀ primIndex, ∀ c ∈ geometryCalls env renderable primIndex value, c.isCreate = false := by
  induction value with
  | nil => intro _ c hc; simp [geometryCalls] at hc
  | cons prim rest ih =>
    intro primIndex c hc
    simp only [geometryCalls, List.mem_cons] at hc
    rcases hc with rfl | hc
    · rfl
    · exact ih _ c hc

theorem isCreateFor_le_isCreate (k : MorphKey) (c : MorphCall) (h : c.isCreate = false) :
    c.isCreateFor k = false := by
  cases c <;> simp_all [MorphCall.isCreate, MorphCall.isCreateFor]

theorem applyWeights_found (env : MorphEnv) (h : MorphHelper) (entity : Nat)
    (weights : List Int) (e : MorphKey × MorphValue)
    (hfind : h.find (morphKey env entity weights) = some e) :
    (applyWeights env h entity weights).1.mMorphTable = h.mMorphTable ∧
    (applyWeights env h entity weights).2 =
      geometryCalls env (env.getInstance entity) 0 e.2 ++
        [MorphCall.setMorphWeights (env.getInstance entity)
          (highestWeights weights (morphKey env entity weights).primaryIndices)] := by
  unfold morphKey at hfind
  simp [applyWeights, morphKey, hfind]

theorem applyWeights_absent (env : MorphEnv) (h : MorphHelper) (entity : Nat)
    (weights : List Int) (hfind : h.find (morphKey env entity weights) = none) :
    (applyWeights env h entity weights).1.mMorphTable =
      h.mMorphTable ++ [(morphKey env entity weights,
        env.createMorphTableEntry entity (morphKey env entity weights).primaryIndices)] ∧
    (applyWeights env h entity weights).2 =
      [MorphCall.createMorphTableEntry entity (morphKey env entity weights).primaryIndices,
       MorphCall.printf ((morphKey env entity weights).primaryIndices.getD 0 0)
         ((morphKey env entity weights).primaryIndices.getD 1 0)
         ((morphKey env entity weights).primaryIndices.getD 2 0)
         ((morphKey env entity weights).primaryIndices.getD 3 0)] ++
      geometryCalls env (env.getInstance entity) 0
        (env.createMorphTableEntry entity (morphKey env entity weights).primaryIndices) ++
        [MorphCall.setMorphWeights (env.getInstance entity)
          (highestWeights weights (morphKey env entity weights).primaryIndices)] := by
  unfold morphKey at hfind
  simp [applyWeights, morphKey, hfind]

theorem countP_geometryCalls (env : MorphEnv) (renderable : Nat) (value : MorphValue)
    (p : MorphCall → Bool) (hp : ∀ c, c.isCreate = false → p c = false) :
    (geometryCalls env renderable 0 value).countP p = 0 := by
  rw [List.countP_eq_zero]
  intro c hc
  simp [hp c (geometryCalls_no_create env renderable value 0 c hc)]

theorem applyWeights_count (env : MorphEnv) (h : MorphHelper) (entity : Nat)
    (weights : List Int) (k : MorphKey) :
    (applyWeights env h entity weights).2.countP (MorphCall.isCreateFor k) =
      if h.find (morphKey env entity weights) = none ∧ k = morphKey env entity weights
      then 1 else 0 := by
  cases hfind : h.find (morphKey env entity weights) with
  | some e =>
    rw [(applyWeights_found env h entity weights e hfind).2]
    simp [List.countP_append, countP_geometryCalls env _ _ _ (isCreateFor_le_isCreate k),
      MorphCall.isCreateFor]
  | none =>
    rw [(applyWeights_absent env h entity weights hfind).2]
    simp only [List.countP_append,
      countP_geometryCalls env _ _ _ (isCreateFor_le_isCreate k)]
    by_cases hk : k = morphKey env entity weights
    · subst hk
      simp [List.countP_cons, MorphCall.isCreateFor, morphKey]
    · have hne : ¬ (entity = k.targetEntity ∧
          (morphKey env entity weights).primaryIndices = k.primaryIndices) := by
        rintro ⟨h1, h2⟩
        apply hk
        cases k
        simp only [morphKey, MorphKey.mk.injEq] at h1 h2 ⊢
        exact ⟨h1.symm, h2.symm⟩
      simp only [List.countP_cons, List.countP_nil, MorphCall.isCreateFor, hk, and_false,
        if_false]
      simp only [not_and] at hne
      by_cases h1 : entity = k.targetEntity
      · have h2 := hne h1
        simp [h2]
      · simp [h1]

theorem find_append_some (h : MorphHelper) (k : MorphKey) (e : MorphKey × MorphValue)
    (extra : List (MorphKey × MorphValue)) (hfind : h.find k = some e) :
    MorphHelper.find { h with mMorphTable := h.mMorphTable ++ extra } k = some e := by
  unfold MorphHelper.find at hfind ⊢
  simp [List.find?_append, hfind]

theorem applyWeights_keeps (env : MorphEnv) (h : MorphHelper) (entity : Nat)
    (weights : List Int) (k : MorphKey) (e : MorphKey × MorphValue)
    (hk : h.find k = some e) : (applyWeights env h entity weights).1.find k = some e := by
  cases hfind : h.find (morphKey env entity weights) with
  | some e1 =>
    have := (applyWeights_found env h entity weights e1 hfind).1
    unfold MorphHelper.find at hk ⊢
    rw [this]
    exact hk
  | none =>
    have := (applyWeights_absent env h entity weights hfind).1
    unfold MorphHelper.find at hk ⊢
    rw [this]
    simp [List.find?_append, hk]

theorem applyWeights_stores (env : MorphEnv) (h : MorphHelper) (entity : Nat)
    (weights : List Int) :
    ∃ e, (applyWeights env h entity weights).1.find (morphKey env entity weights) = some e := by
  cases hfind : h.find (morphKey env entity weights) with
  | some e1 => exact ⟨e1, applyWeights_keeps env h entity weights _ e1 hfind⟩
  | none =>
    have := (applyWeights_absent env h entity weights hfind).1
    refine ⟨(morphKey env entity weights,
      env.createMorphTableEntry entity (morphKey env entity weights).primaryIndices), ?_⟩
    unfold MorphHelper.find at hfind ⊢
    rw [this]
    simp [List.find?_append, hfind, (MorphKeyEqualFn_iff _ _).2 rfl]

theorem applyWeightsAll_keeps (env : MorphEnv) (inputs : List (Nat × List Int)) :
    ∀ (h : MorphHelper) (k : MorphKey) (e : MorphKey × MorphValue),
      h.find k = some e → (applyWeightsAll env h inputs).1.find k = some e := by
  induction inputs with
  | nil => intro h k e hk; exact hk
  | cons input rest ih =>
    intro h k e hk
    obtain ⟨entity, weights⟩ := input
    simp only [applyWeightsAll]
    exact ih _ k e (applyWeights_keeps env h entity weights k e hk)

theorem applyWeightsAll_count (env : MorphEnv) (inputs : List (Nat × List Int)) :
    ∀ (h : MorphHelper) (k : MorphKey),
      (applyWeightsAll env h inputs).2.countP (MorphCall.isCreateFor k) ≤ 1 ∧
      (h.find k ≠ none →
        (applyWeightsAll env h inputs).2.countP (MorphCall.isCreateFor k) = 0) := by
  induction inputs with
  | nil => intro h k; simp [applyWeightsAll]
  | cons input rest ih =>
    intro h k
    obtain ⟨entity, weights⟩ := input
    simp only [applyWeightsAll, List.countP_append]
    rw [applyWeights_count]
    obtain ⟨hle, hzero⟩ := ih (applyWeights env h entity weights).1 k
    by_cases hnew : h.find (morphKey env entity weights) = none ∧
        k = morphKey env entity weights
    · obtain ⟨hnone, hk⟩ := hnew
      obtain ⟨e, he⟩ := applyWeights_stores env h entity weights
      have hz := hzero (by rw [hk, he]; simp)
      constructor
      · simp [hnone, hk, hk ▸ hz]
      · intro hpresent
        rw [hk] at hpresent
        exact absurd hnone hpresent
    · rw [if_neg hnew]
      constructor
      · omega
      · intro hpresent
        obtain ⟨e, he⟩ := Option.ne_none_iff_exists'.1 hpresent
        have := applyWeights_keeps env h entity weights k e he
        rw [hzero (by rw [this]; simp)]

theorem applyWeights_create_count (env : MorphEnv) (h : MorphHelper) (entity : Nat)
    (weights : List Int) :
    (applyWeights env h entity weights).2.countP MorphCall.isCreate =
      if h.find (morphKey env entity weights) = none then 1 else 0 := by
  cases hfind : h.find (morphKey env entity weights) with
  | some e =>
    rw [(applyWeights_found env h entity weights e hfind).2]
    simp [List.countP_append, countP_geometryCalls env _ _ _ (fun _ hc => hc),
      MorphCall.isCreate]
  | none =>
    rw [(applyWeights_absent env h entity weights hfind).2]
    simp [List.countP_append, countP_geometryCalls env _ _ _ (fun _ hc => hc),
      List.countP_cons, MorphCall.isCreate]

theorem applyWeights_create_only_absent (env : MorphEnv) (h : MorphHelper) (entity : Nat)
    (weights : List Int) (c : MorphCall) (hc : c ∈ (applyWeights env h entity weights).2)
    (hcreate : c.isCreate = true) :
    h.find (morphKey env entity weights) = none ∧
    c = MorphCall.createMorphTableEntry entity
      (morphKey env entity weights).primaryIndices := by
  cases hfind : h.find (morphKey env entity weights) with
  | some e =>
    rw [(applyWeights_found env h entity weights e hfind).2] at hc
    simp only [List.mem_append, List.mem_singleton] at hc
    rcases hc with hc | hc
    · rw [geometryCalls_no_create env _ _ _ c hc] at hcreate; cases hcreate
    · subst hc; cases hcreate
  | none =>
    refine ⟨rfl, ?_⟩
    rw [(applyWeights_absent env h entity weights hfind).2] at hc
    simp only [List.mem_append, List.mem_cons, List.mem_singleton, List.not_mem_nil,
      or_false] at hc
    rcases hc with ((hc | hc) | hc) | hc
    · exact hc
    · subst hc; cases hcreate
    · rw [geometryCalls_no_create env _ _ _ c hc] at hcreate; cases hcreate
    · subst hc; cases hcreate

theorem geometryCalls_length (env : MorphEnv) (renderable : Nat) (value : MorphValue) :
    ∀ start, (geometryCalls env renderable start value).length = value.length := by
  induction value with
  | nil => intro _; rfl
  | cons prim rest ih => intro start; simp [geometryCalls, ih]

theorem geometryCalls_getElem? (env : MorphEnv) (renderable : Nat) (value : MorphValue) :
    ∀ (start i : Nat) (prim : Primitive), value[i]? = some prim →
      (geometryCalls env renderable start value)[i]? =
        some (MorphCall.setGeometryAt renderable (start + i) prim.type prim.vertices
          prim.indices 0 (env.getIndexCount prim.indices)) := by
  induction value with
  | nil => intro start i prim h; simp at h
  | cons first rest ih =>
    intro start i prim h
    cases i with
    | zero =>
      simp only [List.getElem?_cons_zero, Option.some.injEq] at h
      subst h
      simp [geometryCalls]
    | succ i =>
      simp only [List.getElem?_cons_succ] at h
      have := ih (start + 1) i prim h
      simp only [geometryCalls, List.getElem?_cons_succ, this]
      congr 2
      omega

/-- C11: the morph table is a cache.  In every call of `applyWeights`,
`createMorphTableEntry` is invoked only when the key (entity, primary indices) is
absent from the morph table, and then once, for that key.  Over every sequence of
calls, from any table, it is invoked at most once per key, and never for a key the
table already holds.  In a run without fault, a later call with the same entity and
the same primary indices, whatever calls came between, finds the entry stored by the
earlier call (the value `createMorphTableEntry` built then, or the entry the table
held before), makes no `createMorphTableEntry` call, leaves the table unchanged, and
its calls are one `setGeometryAt` per primitive of that entry, in order, with the
primitive's type, vertex buffer and index buffer, followed by `setMorphWeights`. -/
theorem applyWeights_caches_entries (env : MorphEnv) :
    (∀ (h : MorphHelper) (entity : Nat) (weights : List Int),
      (∀ c ∈ (applyWeights env h entity weights).2, c.isCreate = true →
        h.find (morphKey env entity weights) = none ∧
        c = MorphCall.createMorphTableEntry entity
          (morphKey env entity weights).primaryIndices) ∧
      (applyWeights env h entity weights).2.countP MorphCall.isCreate =
        (if h.find (morphKey env entity weights) = none then 1 else 0)) ∧
    (∀ (h : MorphHelper) (inputs : List (Nat × List Int)) (key : MorphKey),
      (applyWeightsAll env h inputs).2.countP (MorphCall.isCreateFor key) ≤ 1 ∧
      (h.find key ≠ none →
        (applyWeightsAll env h inputs).2.countP (MorphCall.isCreateFor key) = 0)) ∧
    (∀ (h : MorphHelper) (entity : Nat) (weights : List Int)
        (between : List (Nat × List Int)) (entity2 : Nat) (weights2 : List Int),
      applyWeightsFault env h entity weights = none →
      applyWeightsAllFault env (applyWeights env h entity weights).1 between = none →
      applyWeightsFault env
        (applyWeightsAll env (applyWeights env h entity weights).1 between).1
        entity2 weights2 = none →
      morphKey env entity2 weights2 = morphKey env entity weights →
      ∃ e,
        (h.find (morphKey env entity weights) = none →
          e = (morphKey env entity weights,
            env.createMorphTableEntry entity (morphKey env entity weights).primaryIndices)) ∧
        (∀ e0, h.find (morphKey env entity weights) = some e0 → e = e0) ∧
        (applyWeightsAll env (applyWeights env h entity weights).1 between).1.find
          (morphKey env entity2 weights2) = some e ∧
        (applyWeights env (applyWeightsAll env (applyWeights env h entity weights).1 between).1
          entity2 weights2).1.mMorphTable =
          (applyWeightsAll env (applyWeights env h entity weights).1 between).1.mMorphTable ∧
        (applyWeights env (applyWeightsAll env (applyWeights env h entity weights).1 between).1
          entity2 weights2).2.countP MorphCall.isCreate = 0 ∧
        (applyWeights env (applyWeightsAll env (applyWeights env h entity weights).1 between).1
          entity2 weights2).2.length = e.2.length + 1 ∧
        (∀ (i : Nat) (prim : Primitive), e.2[i]? = some prim →
          (applyWeights env
            (applyWeightsAll env (applyWeights env h entity weights).1 between).1
            entity2 weights2).2[i]? =
            some (MorphCall.setGeometryAt (env.getInstance entity2) i prim.type
              prim.vertices prim.indices 0 (env.getIndexCount prim.indices))) ∧
        ∃ w, (applyWeights env
            (applyWeightsAll env (applyWeights env h entity weights).1 between).1
            entity2 weights2).2[e.2.length]? =
            some (MorphCall.setMorphWeights (env.getInstance entity2) w)) := by
  refine ⟨fun h entity weights =>
    ⟨fun c hc hcreate => applyWeights_create_only_absent env h entity weights c hc hcreate,
      applyWeights_create_count env h entity weights⟩,
    fun h inputs key => applyWeightsAll_count env inputs h key, ?_⟩
  intro h entity weights between entity2 weights2 _ _ _ hkey
  have hstored : ∃ e, (applyWeights env h entity weights).1.find
      (morphKey env entity weights) = some e ∧
      (h.find (morphKey env entity weights) = none →
        e = (morphKey env entity weights,
          env.createMorphTableEntry entity (morphKey env entity weights).primaryIndices)) ∧
      (∀ e0, h.find (morphKey env entity weights) = some e0 → e = e0) := by
    cases hfind : h.find (morphKey env entity weights) with
    | some e1 =>
      exact ⟨e1, applyWeights_keeps env h entity weights _ e1 hfind,
        fun hn => Option.noConfusion hn, fun e0 he0 => Option.some.inj he0⟩
    | none =>
      have htab := (applyWeights_absent env h entity weights hfind).1
      refine ⟨(morphKey env entity weights,
        env.createMorphTableEntry entity (morphKey env entity weights).primaryIndices),
        ?_, fun _ => rfl, fun e0 he0 => Option.noConfusion he0⟩
      unfold MorphHelper.find at hfind ⊢
      rw [htab]
      simp [List.find?_append, hfind, (MorphKeyEqualFn_iff _ _).2 rfl]
  obtain ⟨e, he, hnew, hold⟩ := hstored
  have hlater := applyWeightsAll_keeps env between _ _ e he
  have hlater2 : (applyWeightsAll env (applyWeights env h entity weights).1 between).1.find
      (morphKey env entity2 weights2) = some e := by rw [hkey]; exact hlater
  obtain ⟨htable, hcalls⟩ := applyWeights_found env _ entity2 weights2 e hlater2
  have hlen := geometryCalls_length env (env.getInstance entity2) e.2 0
  refine ⟨e, hnew, hold, hlater2, htable, ?_, ?_, ?_, ?_⟩
  · rw [applyWeights_create_count, hlater2]
    simp
  · rw [hcalls]
    simp [hlen]
  · intro i prim hprim
    have hi : i < e.2.length := by
      rcases Nat.lt_or_ge i e.2.length with hlt | hge
      · exact hlt
      · rw [List.getElem?_eq_none hge] at hprim; cases hprim
    rw [hcalls, List.getElem?_append_left (by rw [hlen]; exact hi)]
    have := geometryCalls_getElem? env (env.getInstance entity2) e.2 0 i prim hprim
    rw [this]
    simp
  · refine ⟨highestWeights weights2 (morphKey env entity2 weights2).primaryIndices, ?_⟩
    rw [hcalls, List.getElem?_append_right (by rw [hlen]), hlen]
    simp

/-- C11 on a concrete run: four calls, the second with the key of the first; three
entries are created, one per key, and the second call creates none.  A call for entity
7 after a call for entity 8 in between finds the entry the first call stored and sets
the geometry from its one primitive. -/
theorem applyWeights_caches_entries_witness :
    (applyWeightsAll sampleMorphEnv MorphHelper.new
      [(7, [1, 0, 2]), (7, [3, 0, 5]), (8, [1, 0, 2]), (7, [0, 1])]).2.countP
        (MorphCall.isCreateFor ⟨7, [0, 2, 255, 255]⟩) ≤ 1 ∧
    (applyWeightsAll sampleMorphEnv MorphHelper.new
      [(7, [1, 0, 2]), (7, [3, 0, 5]), (8, [1, 0, 2]), (7, [0, 1])]).2.countP
        MorphCall.isCreate = 3 ∧
    morphKey sampleMorphEnv 7 [3, 0, 5] = morphKey sampleMorphEnv 7 [1, 0, 2] ∧
    (applyWeights sampleMorphEnv (applyWeights sampleMorphEnv MorphHelper.new 7 [1, 0, 2]).1
      7 [3, 0, 5]).2.countP MorphCall.isCreate = 0 ∧
    (applyWeights sampleMorphEnv
      (applyWeightsAll sampleMorphEnv
        (applyWeights sampleMorphEnv MorphHelper.new 7 [1, 0, 2]).1 [(8, [1, 0, 2])]).1
      7 [3, 0, 5]).2[0]? = some (MorphCall.setGeometryAt 7 0 4 519 3 0 36) := by
  refine ⟨((applyWeights_caches_entries sampleMorphEnv).2.1 MorphHelper.new
      [(7, [1, 0, 2]), (7, [3, 0, 5]), (8, [1, 0, 2]), (7, [0, 1])]
      ⟨7, [0, 2, 255, 255]⟩).1, by decide, by decide, by decide, ?_⟩
  obtain ⟨e, hnew, _, _, _, _, _, hpoint, _⟩ :=
    (applyWeights_caches_entries sampleMorphEnv).2.2 MorphHelper.new 7 [1, 0, 2]
      [(8, [1, 0, 2])] 7 [3, 0, 5] (by decide) (by decide) (by decide) (by decide)
  have he := hnew (by decide)
  subst he
  exact hpoint 0 ⟨519, 3, 4⟩ (by decide)

/-! ## C15: the weights handed to `setMorphWeights` -/

theorem set_at_length (l : List Nat) (a x : Nat) (t : List Nat) :
    (l ++ a :: t).set l.length x = l ++ x :: t := by
  induction l with
  | nil => rfl
  | cons b l ih => simp [ih]

theorem pad_step (chosen : List Nat) (index : Nat) (hlen : chosen.length < 4) :
    (chosen.map (· % 256) ++ List.replicate (4 - chosen.length) 255).set chosen.length
        (index % 256) =
      (chosen ++ [index]).map (· % 256) ++
        List.replicate (4 - (chosen ++ [index]).length) 255 := by
  obtain ⟨m, hm⟩ : ∃ m, 4 - chosen.length = m + 1 := ⟨3 - chosen.length, by omega⟩
  have hm2 : 4 - (chosen ++ [index]).length = m := by
    simp only [List.length_append, List.length_singleton]
    omega
  rw [hm, hm2, List.replicate_succ]
  have := set_at_length (chosen.map (· % 256)) 255 (index % 256) (List.replicate m 255)
  rw [List.length_map] at this
  rw [this]
  simp

theorem primaryLoop_eq_chosenLoop (weights sorted : List Int) (count primaryCount : Nat)
    (hpc : primaryCount ≤ 4) :
    ∀ (fuel index primary : Nat) (chosen : List Nat), chosen.length = primary →
      primaryLoop weights sorted count primaryCount fuel index primary
          (chosen.map (· % 256) ++ List.replicate (4 - chosen.length) 255) =
        (chosenLoop weights sorted count primaryCount fuel index primary chosen).map
            (· % 256) ++
          List.replicate
            (4 - (chosenLoop weights sorted count primaryCount fuel index primary
              chosen).length) 255 := by
  intro fuel
  induction fuel with
  | zero => intro index primary chosen _; rfl
  | succ fuel ih =>
    intro index primary chosen hlen
    simp only [primaryLoop, chosenLoop]
    split_ifs with hgo hsel
    · have hlt : chosen.length < 4 := by omega
      rw [← hlen, pad_step chosen index hlt, hlen]
      exact ih (index + 1) (primary + 1) (chosen ++ [index]) (by simp [hlen])
    · exact ih (index + 1) primary chosen hlen
    · rfl

theorem chosenLoop_bounds (weights sorted : List Int) (count primaryCount : Nat) :
    ∀ (fuel index primary : Nat) (chosen : List Nat), chosen.length = primary →
      primary ≤ primaryCount → (∀ j ∈ chosen, j < count) →
      (chosenLoop weights sorted count primaryCount fuel index primary chosen).length ≤
          primaryCount ∧
        ∀ j ∈ chosenLoop weights sorted count primaryCount fuel index primary chosen,
          j < count := by
  intro fuel
  induction fuel with
  | zero =>
    intro index primary chosen hlen hle hlt
    exact ⟨by simp only [chosenLoop]; omega, hlt⟩
  | succ fuel ih =>
    intro index primary chosen hlen hle hlt
    simp only [chosenLoop]
    split_ifs with hgo hsel
    · refine ih (index + 1) (primary + 1) (chosen ++ [index]) (by simp [hlen]) (by omega) ?_
      intro j hj
      simp only [List.mem_append, List.mem_singleton] at hj
      rcases hj with hj | hj
      · exact hlt j hj
      · omega
    · exact ih (index + 1) primary chosen hlen hle hlt
    · exact ⟨by omega, hlt⟩

theorem primaryIndices_of_chosen (env : MorphEnv) (entity : Nat) (weights : List Int) :
    (morphKey env entity weights).primaryIndices =
      (chosenIndices env weights).map (· % 256) ++
        List.replicate (4 - (chosenIndices env weights).length) 255 := by
  have := primaryLoop_eq_chosenLoop weights
    (partlySorted env weights ++ List.replicate (4 - (partlySorted env weights).length) (-1))
    (min weights.length 256) (min 4 (min weights.length 256)) (by omega)
    (min weights.length 256) 0 0 [] rfl
  simpa [morphKey, selectPrimaryIndices, chosenIndices] using this

theorem chosenIndices_bounds (env : MorphEnv) (weights : List Int) :
    (chosenIndices env weights).length ≤ 4 ∧
    ∀ j ∈ chosenIndices env weights, j < weights.length ∧ j < 256 := by
  have := chosenLoop_bounds weights
    (partlySorted env weights ++ List.replicate (4 - (partlySorted env weights).length) (-1))
    (min weights.length 256) (min 4 (min weights.length 256))
    (min weights.length 256) 0 0 [] rfl (by omega) (by simp)
  have hlen : (chosenIndices env weights).length ≤ min 4 (min weights.length 256) := this.1
  have hmem : ∀ j ∈ chosenIndices env weights, j < min weights.length 256 := this.2
  refine ⟨by omega, fun j hj => ?_⟩
  have := hmem j hj
  omega

theorem highestWeights_slot (env : MorphEnv) (entity : Nat) (weights : List Int) (k : Nat)
    (hk : k < (chosenIndices env weights).length) :
    (highestWeights weights (morphKey env entity weights).primaryIndices).getD k 0 =
      weights.getD
        (if (chosenIndices env weights).getD k 0 = 255 then 0
         else (chosenIndices env weights).getD k 0) 0 := by
  have hj : (chosenIndices env weights).getD k 0 < 256 := by
    have hmem : (chosenIndices env weights).getD k 0 ∈ chosenIndices env weights := by
      rw [List.getD_eq_getElem _ _ hk]
      exact List.getElem_mem _
    exact ((chosenIndices_bounds env weights).2 _ hmem).2
  rw [primaryIndices_of_chosen, highestWeights]
  simp only [List.map_append, List.map_map]
  rw [List.getD_append _ _ _ _ (by simpa using hk)]
  rw [List.getD_eq_getElem _ _ (by simpa using hk)]
  rw [List.getD_eq_getElem _ _ hk] at hj ⊢
  simp only [List.getElem_map, Function.comp_apply, Nat.mod_eq_of_lt hj]

theorem geometryCalls_no_weights (env : MorphEnv) (renderable : Nat) (value : MorphValue) :
    ∀ primIndex,
      (geometryCalls env renderable primIndex value).filterMap MorphCall.morphWeights = [] := by
  induction value with
  | nil => intro _; rfl
  | cons prim rest ih =>
    intro primIndex
    simp [geometryCalls, MorphCall.morphWeights, ih]

theorem applyWeights_morphWeights (env : MorphEnv) (h : MorphHelper) (entity : Nat)
    (weights : List Int) :
    (applyWeights env h entity weights).2.filterMap MorphCall.morphWeights =
      [highestWeights weights (morphKey env entity weights).primaryIndices] := by
  cases hfind : h.find (morphKey env entity weights) with
  | some e =>
    rw [(applyWeights_found env h entity weights e hfind).2]
    simp [List.filterMap_append, geometryCalls_no_weights, MorphCall.morphWeights]
  | none =>
    rw [(applyWeights_absent env h entity weights hfind).2]
    simp [List.filterMap_append, geometryCalls_no_weights, MorphCall.morphWeights]

theorem chosenLoop_skip (weights sorted : List Int) (count primaryCount : Nat) :
    ∀ (n fuel index primary : Nat) (chosen : List Nat),
      (∀ i, index ≤ i → i < index + n → weights.getD i 0 ≤ 0) →
      index + n ≤ count → primary < primaryCount →
      chosenLoop weights sorted count primaryCount (n + fuel) index primary chosen =
        chosenLoop weights sorted count primaryCount fuel (index + n) primary chosen := by
  intro n
  induction n with
  | zero => intro fuel index primary chosen _ _ _; simp
  | succ n ih =>
    intro fuel index primary chosen hle hcount hprim
    have hfuel : n + 1 + fuel = (n + fuel) + 1 := by omega
    rw [hfuel]
    simp only [chosenLoop]
    split_ifs with hgo hsel
    · have := hle index (le_refl _) (by omega)
      omega
    · have hstep := ih fuel (index + 1) primary chosen
        (fun i h1 h2 => hle i (by omega) (by omega)) (by omega) hprim
      have hidx : index + 1 + n = index + (n + 1) := by omega
      rw [hidx] at hstep
      exact hstep
    · exact absurd ⟨by omega, hprim⟩ hgo

theorem chosenLoop_one (weights sorted : List Int) (count primaryCount index primary : Nat)
    (chosen : List Nat) (hgo : index < count ∧ primary < primaryCount)
    (hsel : weights.getD index 0 > 0 ∧
      (weights.getD index 0 = sorted.getD 0 0 ∨ weights.getD index 0 = sorted.getD 1 0 ∨
        weights.getD index 0 = sorted.getD 2 0 ∨ weights.getD index 0 = sorted.getD 3 0)) :
    chosenLoop weights sorted count primaryCount 1 index primary chosen =
      chosen ++ [index] := by
  show chosenLoop weights sorted count primaryCount (0 + 1) index primary chosen = _
  simp only [chosenLoop]
  rw [if_pos hgo, if_pos hsel]

theorem zerosThenOne_values (n : Nat) :
    (List.replicate n (0 : Int) ++ [1]).length = n + 1 ∧
    (List.replicate n (0 : Int) ++ [1]).getD n 0 = 1 ∧
    (∀ i, i < n → (List.replicate n (0 : Int) ++ [1]).getD i 0 = 0) ∧
    (∀ v ∈ List.replicate n (0 : Int) ++ [1], v = 0 ∨ v = 1) := by
  refine ⟨by simp, ?_, ?_, ?_⟩
  · rw [List.getD_append_right _ _ _ _ (by simp)]
    simp
  · intro i hi
    rw [List.getD_append _ _ _ _ (by simpa using hi)]
    rw [List.getD_eq_getElem _ _ (by simpa using hi)]
    simp
  · intro v hv
    simp only [List.mem_append, List.mem_replicate, List.mem_singleton] at hv
    rcases hv with ⟨_, hv⟩ | hv
    · exact Or.inl hv
    · exact Or.inr hv

theorem lastOfMaxWeights_values :
    lastOfMaxWeights.length = 256 ∧ lastOfMaxWeights.getD 255 0 = 1 ∧
    (∀ i, i < 255 → lastOfMaxWeights.getD i 0 = 0) ∧
    (∀ v ∈ lastOfMaxWeights, v = 0 ∨ v = 1) ∧ (1 : Int) ∈ lastOfMaxWeights :=
  ⟨(zerosThenOne_values 255).1, (zerosThenOne_values 255).2.1, (zerosThenOne_values 255).2.2.1,
    (zerosThenOne_values 255).2.2.2, List.mem_append_right _ (List.mem_singleton.2 rfl)⟩

theorem nthElement4_max_first (s : List Int) (h : NthElement4 lastOfMaxWeights s) :
    1 = s.getD 0 0 ∨ 1 = s.getD 1 0 ∨ 1 = s.getD 2 0 ∨ 1 = s.getD 3 0 := by
  obtain ⟨hperm, hpart⟩ := h
  have hlen : s.length = 256 := by rw [hperm.length_eq]; exact lastOfMaxWeights_values.1
  have hone : (1 : Int) ∈ s := hperm.mem_iff.2 lastOfMaxWeights_values.2.2.2.2
  obtain ⟨p, hp, hsp⟩ := List.getElem_of_mem hone
  have hgetD : s.getD p 0 = 1 := by rw [List.getD_eq_getElem _ _ hp]; exact hsp
  by_cases hp4 : p < 4
  · interval_cases p
    · exact Or.inl hgetD.symm
    · exact Or.inr (Or.inl hgetD.symm)
    · exact Or.inr (Or.inr (Or.inl hgetD.symm))
    · exact Or.inr (Or.inr (Or.inr hgetD.symm))
  · have hle := hpart 0 (by omega) p hp (by omega)
    rw [hgetD] at hle
    have hmem : s.getD 0 0 ∈ s := by
      rw [List.getD_eq_getElem _ _ (by omega : 0 < s.length)]
      exact List.getElem_mem _
    rcases lastOfMaxWeights_values.2.2.2.1 _ (hperm.mem_iff.1 hmem) with h0 | h1
    · omega
    · exact Or.inl h1.symm

theorem chosenIndices_lastOfMaxWeights (env : MorphEnv)
    (h : NthElement4 lastOfMaxWeights (env.nth_element lastOfMaxWeights)) :
    chosenIndices env lastOfMaxWeights = [255] := by
  have hfirst := nthElement4_max_first _ h
  have hlenW := lastOfMaxWeights_values.1
  have hlen : (env.nth_element lastOfMaxWeights).length = 256 := by
    rw [h.1.length_eq]; exact hlenW
  have hsorted : partlySorted env lastOfMaxWeights = env.nth_element lastOfMaxWeights := by
    unfold partlySorted
    simp only [hlenW, Nat.min_self]
    rw [if_pos (by decide), List.take_of_length_le (by rw [hlenW])]
  unfold chosenIndices
  simp only [hsorted, hlen, hlenW, Nat.min_self]
  show chosenLoop lastOfMaxWeights (env.nth_element lastOfMaxWeights ++ []) 256 4 (255 + 1)
    0 0 [] = [255]
  rw [List.append_nil]
  have hlast : chosenLoop lastOfMaxWeights (env.nth_element lastOfMaxWeights) 256 4 1
      (0 + 255) 0 [] = [255] := by
    rw [chosenLoop_one _ _ _ _ _ _ _ (by omega)]
    · rfl
    · rw [show 0 + 255 = 255 from rfl, lastOfMaxWeights_values.2.1]
      exact ⟨by decide, hfirst⟩
  rw [chosenLoop_skip lastOfMaxWeights (env.nth_element lastOfMaxWeights) 256 4 255 1 0 0 []
    (fun i _ hi => by rw [lastOfMaxWeights_values.2.2.1 i (by omega)]) (by omega) (by omega),
    hlast]

set_option maxRecDepth 100000 in
theorem sortDescending_lastOfMaxWeights :
    NthElement4 lastOfMaxWeights (sortDescending lastOfMaxWeights) := by
  have h : sortDescending lastOfMaxWeights = [1] ++ List.replicate 255 0 := by decide
  refine ⟨?_, ?_⟩
  · rw [h]
    exact List.perm_append_comm
  · decide

set_option maxRecDepth 100000 in
/-- C15 fails on the code: with 256 weights, all zero but the last, the selection loop
chooses index 255 for slot 0, whatever rearrangement `nth_element` produces; the byte
stored is 0xff, the unused-slot marker, so the index tuple is {0xff, 0xff, 0xff, 0xff}
and the value passed to `setMorphWeights` in slot 0 is `weights[0] = 0`, not
`weights[255] = 1`.  In general the value passed in a slot for which the loop chose
index `j` is `weights[j]` unless `j` is 255, when it is `weights[0]`; so the slots are
right for every array of at most 255 weights. -/
theorem morphWeights_index_255_confused :
    lastOfMaxWeights.length = 256 ∧
    lastOfMaxWeights.getD 255 0 = 1 ∧
    lastOfMaxWeights.getD 0 0 = 0 ∧
    (∀ (env : MorphEnv) (h : MorphHelper) (entity : Nat),
      NthElement4 lastOfMaxWeights (env.nth_element lastOfMaxWeights) →
      chosenIndices env lastOfMaxWeights = [255] ∧
      (morphKey env entity lastOfMaxWeights).primaryIndices = [255, 255, 255, 255] ∧
      (applyWeights env h entity lastOfMaxWeights).2.filterMap MorphCall.morphWeights =
        [[0, 0, 0, 0]]) ∧
    (∀ (env : MorphEnv) (entity : Nat) (weights : List Int) (k : Nat),
      k < (chosenIndices env weights).length →
      (highestWeights weights (morphKey env entity weights).primaryIndices).getD k 0 =
        weights.getD
          (if (chosenIndices env weights).getD k 0 = 255 then 0
           else (chosenIndices env weights).getD k 0) 0) ∧
    (∀ (env : MorphEnv) (entity : Nat) (weights : List Int) (k : Nat),
      weights.length ≤ 255 → k < (chosenIndices env weights).length →
      (highestWeights weights (morphKey env entity weights).primaryIndices).getD k 0 =
        weights.getD ((chosenIndices env weights).getD k 0) 0) := by
  refine ⟨lastOfMaxWeights_values.1, lastOfMaxWeights_values.2.1,
    lastOfMaxWeights_values.2.2.1 0 (by omega), ?_, highestWeights_slot, ?_⟩
  · intro env h entity hnth
    have hchosen := chosenIndices_lastOfMaxWeights env hnth
    have hkey : (morphKey env entity lastOfMaxWeights).primaryIndices =
        [255, 255, 255, 255] := by
      rw [primaryIndices_of_chosen, hchosen]
      rfl
    refine ⟨hchosen, hkey, ?_⟩
    rw [applyWeights_morphWeights, hkey]
    decide
  · intro env entity weights k hlen hk
    rw [highestWeights_slot env entity weights k hk]
    have hmem : (chosenIndices env weights).getD k 0 ∈ chosenIndices env weights := by
      rw [List.getD_eq_getElem _ _ hk]
      exact List.getElem_mem _
    have := ((chosenIndices_bounds env weights).2 _ hmem).1
    rw [if_neg (by omega)]

set_option maxRecDepth 100000 in
/-- C15's failing input with the descending sort as the outcome of `nth_element`, on a
fresh helper. -/
theorem morphWeights_index_255_confused_witness :
    chosenIndices sampleMorphEnv lastOfMaxWeights = [255] ∧
    (morphKey sampleMorphEnv 7 lastOfMaxWeights).primaryIndices = [255, 255, 255, 255] ∧
    (applyWeights sampleMorphEnv MorphHelper.new 7 lastOfMaxWeights).2.filterMap
      MorphCall.morphWeights = [[0, 0, 0, 0]] :=
  morphWeights_index_255_confused.2.2.2.1 sampleMorphEnv MorphHelper.new 7
    sortDescending_lastOfMaxWeights

end Gltfio
